import Mathlib

/-!
# Session and token lifecycle of the portal's authentication client

A shallow embedding of `src/context/AuthContext.js` (the session reducer and the
operations `initializeAuth`, `login`, `logout`, `refreshAccessToken`) and of
`src/services/authService.js` (the axios client with its two interceptors and the
`verifyToken`, `refreshToken`, `logout` calls), with the effect of
`src/pages/CallbackPage.js` and `canChangeRole` of
`src/components/RoleAssignmentModal.js`.

Effects are explicit: every operation takes a `World` (browser storage, the
reducer state, `window.location.href`, and the trace of effects so far) and
returns its result together with the new `World`.  A rejected promise or a thrown
error is `Except.error`.  The backend is a parameter: an arbitrary function from
the trace so far and the request being sent to what axios observes.

These operations describe runs in which every call is answered.  The calls of
`apiClient` always are, at the latest by its `timeout: 10000`; the refresh call is
a bare `axios.post` for which no timeout is configured, so it may stay unanswered
for ever.  The section on calls that never settle gives `apiClient` and `logout`
on a `Network` where that can happen.
-/

namespace PrqPortal

/-! ## Data model -/

/-- The two `localStorage` keys the client uses. -/
inductive StorageKey where
  | authToken
  | refreshToken
deriving DecidableEq, Repr

/-- The part of `localStorage` the client touches: `getItem` gives `null` (here
`none`) for an absent key and the stored string otherwise. -/
structure TokenStore where
  authToken : Option String
  refreshToken : Option String
deriving DecidableEq, Repr

def TokenStore.getItem (s : TokenStore) : StorageKey → Option String
  | .authToken => s.authToken
  | .refreshToken => s.refreshToken

def TokenStore.setItem (s : TokenStore) : StorageKey → String → TokenStore
  | .authToken, v => { s with authToken := some v }
  | .refreshToken, v => { s with refreshToken := some v }

def TokenStore.removeItem (s : TokenStore) : StorageKey → TokenStore
  | .authToken => { s with authToken := none }
  | .refreshToken => { s with refreshToken := none }

/-- JavaScript truthiness of a value that is a string, `null` or `undefined`:
only a non-empty string passes `if (value)`. -/
def truthy : Option String → Bool
  | some s => s != ""
  | none => false

/-- The value of `value || fallback` for a string-or-absent `value`. -/
def orElse (value : Option String) (fallback : String) : String :=
  match value with
  | some s => if s != "" then s else fallback
  | none => fallback

/-- What `localStorage.setItem` stores and a template literal prints for a
string-or-`undefined` value. -/
def toStr : Option String → String
  | some s => s
  | none => "undefined"

/-- The profile object a verify response carries in `user`; the session code
never looks inside it. -/
structure User where
  id : Nat
  email : String
deriving DecidableEq, Repr

/-- The reducer state (`authInitialState` gives its shape). -/
structure AuthState where
  user : Option User
  token : Option String
  refreshToken : Option String
  isAuthenticated : Bool
  isLoading : Bool
  error : Option String
deriving DecidableEq, Repr

def authInitialState : AuthState :=
  { user := none, token := none, refreshToken := none,
    isAuthenticated := false, isLoading := true, error := none }

/-- The actions of `AUTH_ACTIONS` with the payload fields the dispatch sites
pass; `unknown` is an action whose type is none of the listed ones. -/
inductive Action where
  | LOGIN_START
  | LOGIN_SUCCESS (user : Option User) (token refreshToken : Option String)
  | LOGIN_FAILURE (error : Option String)
  | LOGOUT
  | VERIFY_TOKEN_START
  | VERIFY_TOKEN_SUCCESS (user : Option User) (token refreshToken : Option String)
  | VERIFY_TOKEN_FAILURE (error : Option String)
  | REFRESH_TOKEN_SUCCESS (token : Option String)
  | CLEAR_ERROR
  | unknown
deriving DecidableEq, Repr

def authReducer (state : AuthState) : Action → AuthState
  | .LOGIN_START | .VERIFY_TOKEN_START =>
      { state with isLoading := true, error := none }
  | .LOGIN_SUCCESS user token refreshToken =>
      { state with user := user, token := token, refreshToken := refreshToken,
                   isAuthenticated := true, isLoading := false, error := none }
  | .VERIFY_TOKEN_SUCCESS user _ _ =>
      { state with user := user, isAuthenticated := true, isLoading := false, error := none }
  | .REFRESH_TOKEN_SUCCESS token =>
      { state with token := token, isLoading := false, error := none }
  | .LOGIN_FAILURE error | .VERIFY_TOKEN_FAILURE error =>
      { state with user := none, token := none, refreshToken := none,
                   isAuthenticated := false, isLoading := false, error := error }
  | .LOGOUT => { authInitialState with isLoading := false }
  | .CLEAR_ERROR => { state with error := none }
  | .unknown => state

/-! ## HTTP layer -/

/-- The fields the client reads from a JSON response body (an object):
`success` is the truthiness of `data.success`; the others are absent when the
body lacks them. -/
structure Data where
  success : Bool
  user : Option User
  accessToken : Option String
  message : Option String
deriving DecidableEq, Repr

/-- The request bodies the session code sends, and `json` for any other. -/
inductive Body where
  | token (token : String)
  | refreshToken (refreshToken : String)
  | json (payload : String)
  | empty
deriving DecidableEq, Repr

/-- An axios request config: `_retry` is the flag the response interceptor sets
on a config it has already recovered once (absent, hence falsy, on a config a
caller builds). -/
structure RequestConfig where
  method : String
  url : String
  data : Body
  Authorization : Option String
  _retry : Bool
deriving DecidableEq, Repr

/-- An HTTP response as axios hands it over. -/
structure Response where
  status : Nat
  data : Data
deriving DecidableEq, Repr

/-- A rejected promise or thrown value: an axios error (with the config of the
request and the response, when one arrived) or a plain `new Error(message)`. -/
inductive JsError where
  | axios (message : String) (config : RequestConfig) (response : Option Response)
  | error (message : String)
deriving DecidableEq, Repr

/-- The value of `error.message`. -/
def JsError.message : JsError → String
  | .axios m _ _ => m
  | .error m => m

/-- The value of `error.response?.data?.message`. -/
def JsError.responseMessage : JsError → Option String
  | .axios _ _ (some r) => r.data.message
  | .axios _ _ none => none
  | .error _ => none

/-- The value of `error.response?.status`. -/
def JsError.status : JsError → Option Nat
  | .axios _ _ (some r) => some r.status
  | .axios _ _ none => none
  | .error _ => none

/-- An effect of the client that is visible outside it. -/
inductive Event where
  | getItem (key : StorageKey)
  | setItem (key : StorageKey) (value : String)
  | removeItem (key : StorageKey)
  | request (config : RequestConfig)
  | axiosPost (url : String) (data : Body)
  | navigate (href : String)
deriving DecidableEq, Repr

/-- What axios observes for one request once it has settled: an HTTP response of
any status, or no response at all (network failure or, for a request of
`apiClient`, its 10000 ms timeout), with the message axios puts on the error. -/
inductive Outcome where
  | response (status : Nat) (data : Data)
  | noResponse (message : String)
deriving DecidableEq, Repr

/-- The backend and the network when every call is answered: the answer to a
request may depend on everything that happened before it. -/
abbrev Backend := List Event → Event → Outcome

/-- Browser storage, the reducer state of `AuthProvider`, the last value
assigned to `window.location.href` (if any) and the effects so far. -/
structure World where
  store : TokenStore
  session : AuthState
  href : Option String
  trace : List Event
deriving DecidableEq, Repr

/-- An awaited call that has settled: resolved value or rejection, and the world
afterwards. -/
abbrev Task (α : Type) := Except JsError α × World

def World.log (w : World) (e : Event) : World :=
  { w with trace := w.trace ++ [e] }

/-- The call `localStorage.getItem(key)`. -/
def getItem (key : StorageKey) (w : World) : Option String × World :=
  (w.store.getItem key, w.log (.getItem key))

/-- The call `localStorage.setItem(key, value)`. -/
def setItem (key : StorageKey) (value : String) (w : World) : World :=
  { w with store := w.store.setItem key value, trace := w.trace ++ [.setItem key value] }

/-- The call `localStorage.removeItem(key)`. -/
def removeItem (key : StorageKey) (w : World) : World :=
  { w with store := w.store.removeItem key, trace := w.trace ++ [.removeItem key] }

/-- The assignment `window.location.href = href`. -/
def navigate (href : String) (w : World) : World :=
  { w with href := some href, trace := w.trace ++ [.navigate href] }

/-- The call `dispatch(action)` of `useReducer(authReducer, authInitialState)`. -/
def dispatch (action : Action) (w : World) : World :=
  { w with session := authReducer w.session action }

/-- Puts a request on the wire and waits for what comes back. -/
def transmit (be : Backend) (e : Event) (w : World) : Outcome × World :=
  (be w.trace e, w.log e)

/-- The default `validateStatus` of axios. -/
def validateStatus (status : Nat) : Bool :=
  200 ≤ status && status < 300

/-- The fallback of `process.env.REACT_APP_AUTH_SERVICE_URL`. -/
def API_BASE_URL : String := "http://localhost:3001"

/-- The message axios gives the error of a response that fails `validateStatus`. -/
def statusMessage (status : Nat) : String :=
  "Request failed with status code " ++ toString status

namespace authService

/-- The call `authService.refreshToken(refreshToken)`: a bare `axios.post`, which
does not pass through the interceptors of `apiClient`.  This is the call once it
has been answered; `refreshTokenOn` is the call that may never be. -/
def refreshToken (be : Backend) (refreshToken : String) (w : World) : Task Data :=
  match transmit be (.axiosPost (API_BASE_URL ++ "/api/auth/refresh") (.refreshToken refreshToken)) w with
  | (.response status data, w) =>
      if validateStatus status then (.ok data, w)
      else (.error (.error (orElse data.message "Token refresh failed")), w)
  | (.noResponse _, w) => (.error (.error "Token refresh failed"), w)

end authService

/-- The request interceptor of `apiClient`. -/
def requestInterceptor (config : RequestConfig) (w : World) : RequestConfig × World :=
  match getItem .authToken w with
  | (token, w) =>
      if truthy token then ({ config with Authorization := some ("Bearer " ++ toStr token) }, w)
      else (config, w)

/-- How axios settles a request: a response that passes `validateStatus`
resolves, any other outcome rejects with an error carrying the request config. -/
def settle (config : RequestConfig) : Outcome → Except JsError Response
  | .response status data =>
      if validateStatus status then .ok ⟨status, data⟩
      else .error (.axios (statusMessage status) config (some ⟨status, data⟩))
  | .noResponse message => .error (.axios message config none)

/-- The assignment `originalRequest._retry = true`, seen through `error.config`
(the same object). -/
def JsError.markRetry : JsError → JsError
  | .axios m config r => .axios m { config with _retry := true } r
  | .error m => .error m

/-- A call `apiClient(config)`: the request interceptor, the request itself, and
the response interceptor, whose recovery path calls `apiClient` again on the
config it has marked `_retry`. -/
def apiClient (be : Backend) (config : RequestConfig) (w : World) : Task Response :=
  match hc : requestInterceptor config w with
  | (originalRequest, w1) =>
    match transmit be (.request originalRequest) w1 with
    | (out, w2) =>
      match settle originalRequest out with
      | .ok response => (.ok response, w2)
      | .error error =>
          if hr : error.status = some 401 ∧ originalRequest._retry = false then
            match getItem .refreshToken w2 with
            | (refreshToken, w3) =>
              if truthy refreshToken then
                match authService.refreshToken be (toStr refreshToken) w3 with
                | (.ok response, w4) =>
                    if response.success then
                      apiClient be
                        { originalRequest with
                          _retry := true
                          Authorization := some ("Bearer " ++ toStr response.accessToken) }
                        (setItem .authToken (toStr response.accessToken) w4)
                    else (.error error.markRetry, w4)
                | (.error refreshError, w4) =>
                    (.error refreshError,
                      navigate "/login" (removeItem .refreshToken (removeItem .authToken w4)))
              else (.error error.markRetry, navigate "/login" w3)
          else (.error error, w2)
termination_by (if config._retry then 0 else 1)
decreasing_by
  have h1 : originalRequest._retry = config._retry := by
    have h : (requestInterceptor config w).1._retry = config._retry := by
      unfold requestInterceptor getItem
      split
      split <;> simp_all
    rw [hc] at h
    exact h
  have h2 : config._retry = false := by rw [← h1]; exact hr.2
  simp [h2]

namespace authService

/-- The call `authService.verifyToken(token)`. -/
def verifyToken (be : Backend) (token : String) (w : World) : Task Data :=
  match apiClient be
      { method := "post", url := "/auth/verify", data := .token token,
        Authorization := none, _retry := false } w with
  | (.ok response, w1) => (.ok response.data, w1)
  | (.error error, w1) =>
      (.error (.error (orElse error.responseMessage "Token verification failed")), w1)

/-- The call `authService.logout(refreshToken)`: its `catch` returns a value
instead of throwing. -/
def logout (be : Backend) (refreshToken : String) (w : World) : Task Data :=
  match apiClient be
      { method := "post", url := "/auth/logout", data := .refreshToken refreshToken,
        Authorization := none, _retry := false } w with
  | (.ok response, w1) => (.ok response.data, w1)
  | (.error error, w1) =>
      (.ok { success := false, user := none, accessToken := none,
             message := some (orElse error.responseMessage "Logout error") }, w1)

end authService

/-! ## Session manager (`AuthProvider`) -/

/-- The function `logout` of `AuthProvider`: `try`, `catch` (which only logs),
`finally`. -/
def logout (be : Backend) (w : World) : Task Unit :=
  let attempt : Task Unit :=
    match getItem .refreshToken w with
    | (refreshToken, w1) =>
      if truthy refreshToken then
        match authService.logout be (toStr refreshToken) w1 with
        | (.ok _, w2) => (.ok (), w2)
        | (.error error, w2) => (.error error, w2)
      else (.ok (), w1)
  match attempt with
  | (_, w3) =>
      (.ok (), dispatch .LOGOUT (removeItem .refreshToken (removeItem .authToken w3)))

/-- The function `refreshAccessToken` of `AuthProvider`; it resolves to
`response.accessToken`. -/
def refreshAccessToken (be : Backend) (refreshToken : String) (w : World) :
    Task (Option String) :=
  let attempt : Task (Option String) :=
    match authService.refreshToken be refreshToken w with
    | (.ok response, w1) =>
        if response.success then
          (.ok response.accessToken,
            dispatch (.REFRESH_TOKEN_SUCCESS response.accessToken)
              (setItem .authToken (toStr response.accessToken) w1))
        else (.error (.error "Token refresh failed"), w1)
    | (.error error, w1) => (.error error, w1)
  match attempt with
  | (.ok accessToken, w2) => (.ok accessToken, w2)
  | (.error error, w2) =>
      match logout be w2 with
      | (.ok _, w3) => (.error error, w3)
      | (.error logoutError, w3) => (.error logoutError, w3)

/-- The effect that runs once when `AuthProvider` mounts. -/
def initializeAuth (be : Backend) (w : World) : Task Unit :=
  match getItem .authToken w with
  | (token, w1) =>
    match getItem .refreshToken w1 with
    | (refreshToken, w2) =>
      if truthy token then
        let attempt : Task Unit :=
          match authService.verifyToken be (toStr token) (dispatch .VERIFY_TOKEN_START w2) with
          | (.ok response, w3) =>
              if response.success then
                (.ok (), dispatch (.VERIFY_TOKEN_SUCCESS response.user token refreshToken) w3)
              else if truthy refreshToken then
                match refreshAccessToken be (toStr refreshToken) w3 with
                | (.ok _, w4) => (.ok (), w4)
                | (.error error, w4) => (.error error, w4)
              else (.error (.error "No valid tokens"), w3)
          | (.error error, w3) => (.error error, w3)
        match attempt with
        | (.ok _, w5) => (.ok (), w5)
        | (.error _, w5) =>
            (.ok (), dispatch (.VERIFY_TOKEN_FAILURE (some "Session expired"))
              (removeItem .refreshToken (removeItem .authToken w5)))
      else (.ok (), dispatch (.VERIFY_TOKEN_FAILURE none) w2)

/-- What `login` resolves to: `{ success: true }` or `{ success: false, error }`. -/
structure LoginResult where
  success : Bool
  error : Option String
deriving DecidableEq, Repr

/-- The function `login` of `AuthProvider`, called with `{ token, refreshToken }`. -/
def login (be : Backend) (token refreshToken : String) (w : World) : Task LoginResult :=
  let attempt : Task LoginResult :=
    match authService.verifyToken be token (dispatch .LOGIN_START w) with
    | (.ok response, w1) =>
        if response.success then
          (.ok { success := true, error := none },
            dispatch (.LOGIN_SUCCESS response.user (some token) (some refreshToken))
              (setItem .refreshToken refreshToken (setItem .authToken token w1)))
        else (.error (.error "Token verification failed"), w1)
    | (.error error, w1) => (.error error, w1)
  match attempt with
  | (.ok result, w2) => (.ok result, w2)
  | (.error error, w2) =>
      (.ok { success := false, error := some error.message },
        dispatch (.LOGIN_FAILURE (some error.message)) w2)

/-- The function `clearError` of `AuthProvider`. -/
def clearError (w : World) : World :=
  dispatch .CLEAR_ERROR w

/-! ## Calls that never settle -/

/-- What the network gives one call: an outcome, or nothing at all, ever. -/
inductive Reply where
  | outcome (outcome : Outcome)
  | never
deriving DecidableEq, Repr

/-- The backend and the network when a call may stay unanswered for ever. -/
abbrev Network := List Event → Event → Reply

/-- What a request of `apiClient` observes on a network: the instance is created
with `timeout: 10000`, so an unanswered request fails with the timeout error of
axios. -/
def Network.backend (net : Network) : Backend := fun trace e =>
  match net trace e with
  | .outcome outcome => outcome
  | .never => .noResponse "timeout of 10000ms exceeded"

/-- An awaited call: it has settled, or it never settles (with the world in
which it waits). -/
inductive Settlement (α : Type) where
  | settled (task : Task α)
  | pending (w : World)

/-- The world a call has reached, settled or not. -/
def Settlement.world {α : Type} : Settlement α → World
  | .settled task => task.2
  | .pending w => w

namespace authService

/-- The call `authService.refreshToken(refreshToken)` on a network: a bare
`axios.post` with no timeout, so an unanswered call never settles. -/
def refreshTokenOn (net : Network) (refreshToken : String) (w : World) : Settlement Data :=
  match net w.trace (.axiosPost (API_BASE_URL ++ "/api/auth/refresh")
      (.refreshToken refreshToken)) with
  | .never =>
      .pending (w.log (.axiosPost (API_BASE_URL ++ "/api/auth/refresh")
        (.refreshToken refreshToken)))
  | .outcome _ => .settled (authService.refreshToken net.backend refreshToken w)

end authService

/-- A call `apiClient(config)` on a network: as `apiClient`, except that the
`await` of the refresh call may never return, and then neither does this call. -/
def apiClientOn (net : Network) (config : RequestConfig) (w : World) : Settlement Response :=
  match hc : requestInterceptor config w with
  | (originalRequest, w1) =>
    match transmit net.backend (.request originalRequest) w1 with
    | (out, w2) =>
      match settle originalRequest out with
      | .ok response => .settled (.ok response, w2)
      | .error error =>
          if hr : error.status = some 401 ∧ originalRequest._retry = false then
            match getItem .refreshToken w2 with
            | (refreshToken, w3) =>
              if truthy refreshToken then
                match authService.refreshTokenOn net (toStr refreshToken) w3 with
                | .pending w4 => .pending w4
                | .settled (.ok response, w4) =>
                    if response.success then
                      apiClientOn net
                        { originalRequest with
                          _retry := true
                          Authorization := some ("Bearer " ++ toStr response.accessToken) }
                        (setItem .authToken (toStr response.accessToken) w4)
                    else .settled (.error error.markRetry, w4)
                | .settled (.error refreshError, w4) =>
                    .settled (.error refreshError,
                      navigate "/login" (removeItem .refreshToken (removeItem .authToken w4)))
              else .settled (.error error.markRetry, navigate "/login" w3)
          else .settled (.error error, w2)
termination_by (if config._retry then 0 else 1)
decreasing_by
  have h1 : originalRequest._retry = config._retry := by
    have h : (requestInterceptor config w).1._retry = config._retry := by
      unfold requestInterceptor getItem
      split
      split <;> simp_all
    rw [hc] at h
    exact h
  have h2 : config._retry = false := by rw [← h1]; exact hr.2
  simp [h2]

namespace authService

/-- The call `authService.logout(refreshToken)` on a network. -/
def logoutOn (net : Network) (refreshToken : String) (w : World) : Settlement Data :=
  match apiClientOn net
      { method := "post", url := "/auth/logout", data := .refreshToken refreshToken,
        Authorization := none, _retry := false } w with
  | .pending w1 => .pending w1
  | .settled (.ok response, w1) => .settled (.ok response.data, w1)
  | .settled (.error error, w1) =>
      .settled (.ok { success := false, user := none, accessToken := none,
                      message := some (orElse error.responseMessage "Logout error") }, w1)

end authService

/-- The function `logout` of `AuthProvider` on a network: while the `await` in
its `try` block has not returned, neither `catch` nor `finally` runs. -/
def logoutOn (net : Network) (w : World) : Settlement Unit :=
  let attempt : Settlement Unit :=
    match getItem .refreshToken w with
    | (refreshToken, w1) =>
      if truthy refreshToken then
        match authService.logoutOn net (toStr refreshToken) w1 with
        | .pending w2 => .pending w2
        | .settled (.ok _, w2) => .settled (.ok (), w2)
        | .settled (.error error, w2) => .settled (.error error, w2)
      else .settled (.ok (), w1)
  match attempt with
  | .pending w3 => .pending w3
  | .settled (_, w3) =>
      .settled (.ok (), dispatch .LOGOUT (removeItem .refreshToken (removeItem .authToken w3)))

/-! ## Reachable sessions, trace predicates, scenarios -/

/-- The session after a sequence of dispatched actions, starting from
`authInitialState`. -/
def sessionAfter (actions : List Action) : AuthState :=
  actions.foldl authReducer authInitialState

/-- Whether the payload of a success action has a non-null `user`. -/
def Action.carriesUser : Action → Bool
  | .LOGIN_SUCCESS user _ _ => user.isSome
  | .VERIFY_TOKEN_SUCCESS user _ _ => user.isSome
  | _ => true

def Event.isRequest : Event → Bool
  | .request _ => true
  | _ => false

def Event.isRefreshCall : Event → Bool
  | .axiosPost url (.refreshToken _) => url == API_BASE_URL ++ "/api/auth/refresh"
  | _ => false

def Event.isRemoveItem : Event → Bool
  | .removeItem _ => true
  | _ => false

/-- Whether a refresh attempt failed: it threw, or it returned a body whose
`success` is falsy. -/
def refreshFailed : Except JsError Data → Bool
  | .error _ => true
  | .ok response => !response.success

/-- A backend that gives one answer to every request of `apiClient` and one
answer to every bare `axios.post` (the refresh call). -/
def scripted (onRequest onRefresh : Outcome) : Backend := fun _ e =>
  match e with
  | .axiosPost _ _ => onRefresh
  | _ => onRequest

def ada : User := { id := 1, email := "ada@example.com" }

/-- The body `{ success: false }`. -/
def failureBody : Data :=
  { success := false, user := none, accessToken := none, message := none }

/-- The body `{ success: true, user }`. -/
def verifiedBody : Data :=
  { success := true, user := some ada, accessToken := none, message := none }

/-- The body `{ success: true, accessToken: "new-a1" }`. -/
def refreshedBody : Data :=
  { success := true, user := none, accessToken := some "new-a1", message := none }

/-- A freshly loaded page whose storage holds an expired access token and a
refresh token. -/
def bootWorld : World :=
  { store := { authToken := some "expired", refreshToken := some "valid-r1" },
    session := authInitialState, href := none, trace := [] }

/-- The config of a call `apiClient.get('/users')`. -/
def getUsersConfig : RequestConfig :=
  { method := "get", url := "/users", data := .empty, Authorization := none, _retry := false }

/-- A backend that answers 401 to every request of `apiClient` unless it carries
`Bearer new-a1`, and that accepts every refresh with the access token `new-a1`. -/
def tokenChecking : Backend := fun _ e =>
  match e with
  | .axiosPost _ _ => .response 200 refreshedBody
  | .request config =>
      if config.Authorization = some "Bearer new-a1" then .response 200 verifiedBody
      else .response 401 failureBody
  | _ => .noResponse "Network Error"

/-- The verify request as it leaves the request interceptor while `token` is
the stored access token. -/
def sentVerifyConfig (token : String) : RequestConfig :=
  { method := "post", url := "/auth/verify", data := .token token,
    Authorization := some ("Bearer " ++ token), _retry := false }

/-- The world in which `initializeAuth` makes its verify call: both keys read,
`VERIFY_TOKEN_START` dispatched. -/
def verifying (w : World) : World :=
  dispatch .VERIFY_TOKEN_START ((w.log (.getItem .authToken)).log (.getItem .refreshToken))

/-- Whether `initializeAuth`, started in `w` with stored access token `t`,
fails: its verify call throws, or resolves to a body whose `success` is falsy
while the refresh token read at the start is absent (or empty) or the refresh
attempt fails. -/
def initializeFails (be : Backend) (w : World) (t : String) : Bool :=
  match authService.verifyToken be t (verifying w) with
  | (.error _, _) => true
  | (.ok response, w3) =>
      !response.success &&
        (!truthy w.store.refreshToken ||
          refreshFailed (authService.refreshToken be (toStr w.store.refreshToken) w3).1)

/-- The session every failed `initializeAuth` ends in. -/
def sessionExpired : AuthState :=
  { user := none, token := none, refreshToken := none,
    isAuthenticated := false, isLoading := false, error := some "Session expired" }

/-- A freshly loaded page with empty storage. -/
def emptyWorld : World :=
  { store := { authToken := none, refreshToken := none },
    session := authInitialState, href := none, trace := [] }

/-- The body `{ message: "Database unavailable" }` of an HTTP 500 answer. -/
def unavailableBody : Data :=
  { success := false, user := none, accessToken := none,
    message := some "Database unavailable" }

/-- Whether the verification made by `login` fails: the verify call throws, or
resolves to a body whose `success` is falsy. -/
def loginVerificationFails (be : Backend) (token : String) (w : World) : Bool :=
  match authService.verifyToken be token (dispatch .LOGIN_START w) with
  | (.error _, _) => true
  | (.ok response, _) => !response.success

/-- The failure reason of a login as the specification words it: the message of
the thrown error, or `Token verification failed` when verify resolved. -/
def loginFailureReason : Except JsError Data → String
  | .error error => error.message
  | .ok _ => "Token verification failed"

/-- The error a failed refresh attempt is signalled with as the specification
words it: the thrown error, or `new Error('Token refresh failed')` when the
refresh resolved. -/
def refreshFailure : Except JsError Data → JsError
  | .error error => error
  | .ok _ => .error "Token refresh failed"

/-! ## Callback page (`src/pages/CallbackPage.js`) -/

/-- The query parameters the callback page reads with `searchParams.get`. -/
structure SearchParams where
  token : Option String
  refreshToken : Option String
  error : Option String
  message : Option String
deriving DecidableEq, Repr

/-- What the callback page does besides its own state: calls of `login`, toasts,
and `navigate` of the router. -/
inductive PageEvent where
  | login (token refreshToken : String)
  | toastSuccess (message : String)
  | toastError (message : String)
  | navigate (path : String)
deriving DecidableEq, Repr

/-- One mounted `CallbackPage`: its ref, its state, what it has done so far, and
the world `login` acts on. -/
structure CallbackPage where
  hasProcessedRef : Bool
  isProcessing : Bool
  events : List PageEvent
  world : World
deriving DecidableEq, Repr

def CallbackPage.emit (page : CallbackPage) (e : PageEvent) : CallbackPage :=
  { page with events := page.events ++ [e] }

/-- The page as it mounts. -/
def CallbackPage.mount (w : World) : CallbackPage :=
  { hasProcessedRef := false, isProcessing := true, events := [], world := w }

/-- The function `handleAuthCallback` of the effect: `try`, `catch`, `finally`. -/
def handleAuthCallback (be : Backend) (searchParams : SearchParams) (page : CallbackPage) :
    CallbackPage :=
  let attempt : Except JsError Unit × CallbackPage :=
    if truthy searchParams.error || !truthy searchParams.token
        || !truthy searchParams.refreshToken then
      (.error (.error (orElse searchParams.message "Authentication failed")), page)
    else
      match login be (toStr searchParams.token) (toStr searchParams.refreshToken)
          (page.emit (.login (toStr searchParams.token) (toStr searchParams.refreshToken))).world with
      | (.ok result, w1) =>
          let page1 :=
            { page.emit (.login (toStr searchParams.token) (toStr searchParams.refreshToken))
              with world := w1 }
          if result.success then
            (.ok (), (page1.emit (.toastSuccess "Successfully signed in!")).emit
              (.navigate "/dashboard"))
          else (.error (.error (orElse result.error "Login failed")), page1)
      | (.error error, w1) =>
          (.error error,
            { page.emit (.login (toStr searchParams.token) (toStr searchParams.refreshToken))
              with world := w1 })
  match attempt with
  | (.ok _, page2) => { page2 with isProcessing := false }
  | (.error error, page2) =>
      { (page2.emit (.toastError (orElse (some error.message) "Authentication failed"))).emit
          (.navigate "/login") with isProcessing := false }

/-- One run of the effect of `CallbackPage`. -/
def callbackEffect (be : Backend) (searchParams : SearchParams) (page : CallbackPage) :
    CallbackPage :=
  if page.hasProcessedRef then page
  else handleAuthCallback be searchParams { page with hasProcessedRef := true }

/-- The effect run once per element of `runs` (the search parameters seen by
each run) on one mounted page. -/
def effectRuns (be : Backend) (runs : List SearchParams) (page : CallbackPage) : CallbackPage :=
  runs.foldl (fun p searchParams => callbackEffect be searchParams p) page

def PageEvent.isLogin : PageEvent → Bool
  | .login _ _ => true
  | _ => false

/-! ## Role assignment (`src/components/RoleAssignmentModal.js`) -/

/-- An entry of `currentUser.userApplications`: `applicationId` is the number it
holds (absent when the field is missing or not a number). -/
structure UserApplication where
  applicationId : Option Int
  systemRole : Option String
deriving DecidableEq, Repr

/-- The fields `canChangeRole` reads from the `currentUser` prop. -/
structure CurrentUser where
  systemRole : Option String
  userApplications : Option (List UserApplication)
deriving DecidableEq, Repr

/-- The comparison `value === number` where `number` comes from `parseInt`
(`none` is `NaN`, which equals nothing). -/
def strictEqNumber (value number : Option Int) : Bool :=
  match value, number with
  | some a, some b => a == b
  | _, _ => false

/-- The function `canChangeRole` of `RoleAssignmentModal`, for the props
`currentUser` (`none` is `null` or `undefined`) and the state `selectedScope`.
The builtin `parseInt` is a parameter (`none` is `NaN`).  Reading a property of
`null` throws a `TypeError`. -/
def canChangeRole (parseInt : String → Option Int) (currentUser : Option CurrentUser)
    (selectedScope : String) : Except JsError Bool :=
  if selectedScope = "global" then
    .ok (currentUser.bind (·.systemRole) == some "administrator")
  else if currentUser.bind (·.systemRole) == some "administrator" then
    .ok true
  else
    match currentUser with
    | none => .error (.error "Cannot read properties of null (reading 'systemRole')")
    | some user =>
        if user.systemRole == some "app_manager" then
          let appId := parseInt selectedScope
          let currentUserApp := user.userApplications.bind fun apps =>
            apps.find? fun ua =>
              strictEqNumber ua.applicationId appId && ua.systemRole == some "app_manager"
          .ok currentUserApp.isSome
        else .ok false

/-- The reference of the specification for `canChangeRole` on a non-null user:
with scope `global`, true iff the user is an administrator; with an application
scope, true iff the user is an administrator, or is an `app_manager` and has an
entry for the application `parseInt(scope)` whose role is `app_manager`. -/
def canChangeRoleReference (parseInt : String → Option Int) (currentUser : CurrentUser)
    (selectedScope : String) : Bool :=
  if selectedScope = "global" then decide (currentUser.systemRole = some "administrator")
  else
    decide (currentUser.systemRole = some "administrator") ||
      (decide (currentUser.systemRole = some "app_manager") &&
        (currentUser.userApplications.getD []).any fun ua =>
          decide (∃ n, ua.applicationId = some n ∧ parseInt selectedScope = some n) &&
            decide (ua.systemRole = some "app_manager"))

/-! ## Further scenarios -/

/-- A loaded page whose storage holds an access token but no refresh token. -/
def accessOnlyWorld : World :=
  { store := { authToken := some "expired", refreshToken := none },
    session := authInitialState, href := none, trace := [] }

/-- A freshly loaded page whose storage holds a refresh token but no access
token. -/
def refreshOnlyWorld : World :=
  { store := { authToken := none, refreshToken := some "valid-r1" },
    session := authInitialState, href := none, trace := [] }

/-- A backend that answers 401 to every request of `apiClient` and mints a new
access token on every refresh: `new-a1` on the first, `new-a2` afterwards. -/
def minting : Backend := fun trace e =>
  match e with
  | .axiosPost _ _ =>
      if trace.any Event.isRefreshCall then
        .response 200 { success := true, user := none, accessToken := some "new-a2",
                        message := none }
      else .response 200 refreshedBody
  | _ => .response 401 failureBody

/-- The config of the bare `axios.post` of `authService.refreshToken`. -/
def refreshConfig (refreshToken : String) : RequestConfig :=
  { method := "post", url := API_BASE_URL ++ "/api/auth/refresh",
    data := .refreshToken refreshToken, Authorization := none, _retry := false }

/-- A network that answers 401 to every request of `apiClient` and never
answers the refresh call. -/
def stalling : Network := fun _ e =>
  match e with
  | .axiosPost _ _ => .never
  | _ => .outcome (.response 401 failureBody)

/-- A network on which every call is answered as by the backend `be`. -/
def answering (be : Backend) : Network := fun trace e => .outcome (be trace e)

/-! ## Lemmas on the HTTP layer -/

theorem requestInterceptor_retry (config : RequestConfig) (w : World) :
    (requestInterceptor config w).1._retry = config._retry := by
  unfold requestInterceptor getItem
  split
  split <;> simp_all

theorem requestInterceptor_world (config : RequestConfig) (w : World) :
    (requestInterceptor config w).2 = w.log (.getItem .authToken) := by
  unfold requestInterceptor getItem
  simp only
  split <;> rfl

theorem requestInterceptor_fields (config : RequestConfig) (w : World) :
    (requestInterceptor config w).1.method = config.method ∧
    (requestInterceptor config w).1.url = config.url ∧
    (requestInterceptor config w).1.data = config.data := by
  unfold requestInterceptor getItem
  simp only
  split <;> simp

/-- On the replay the request interceptor finds the token the response
interceptor has just stored, so the header it writes is the one already set. -/
theorem requestInterceptor_bearer (config : RequestConfig) (w : World) (a : String)
    (hh : config.Authorization = some ("Bearer " ++ a)) (hs : w.store.authToken = some a) :
    (requestInterceptor config w).1 = config := by
  unfold requestInterceptor getItem
  simp only [TokenStore.getItem, hs, truthy, toStr]
  split
  · cases config; simp_all
  · rfl

/-- A config already marked `_retry` is sent once and settled as it comes. -/
theorem apiClient_retried (be : Backend) (config : RequestConfig) (w : World)
    (h : config._retry = true) :
    apiClient be config w =
      (settle (requestInterceptor config w).1
          (be (requestInterceptor config w).2.trace (.request (requestInterceptor config w).1)),
        (requestInterceptor config w).2.log (.request (requestInterceptor config w).1)) := by
  have hr := requestInterceptor_retry config w
  rw [apiClient]
  split
  rename_i c1 w1 hc
  rw [hc] at hr
  simp only at hr
  simp only [transmit, hc]
  split
  · rename_i r hs
    rw [hs]
  · rename_i e hs
    rw [hs]
    simp [hr, h]

/-- What one call of `apiClient` adds to the trace. -/
theorem apiClient_effects (be : Backend) (config : RequestConfig) (w : World) :
    ∃ ext, (apiClient be config w).2.trace = w.trace ++ ext ∧
      (ext.filter Event.isRequest).length ≤ 2 ∧
      (ext.filter Event.isRefreshCall).length ≤ 1 ∧
      (∀ c, Event.request c ∈ ext →
        c.method = config.method ∧ c.url = config.url ∧ c.data = config.data) ∧
      ((∃ r, (apiClient be config w).1 = .ok r) → ext.filter Event.isRemoveItem = []) := by
  have hrr := requestInterceptor_retry config w
  have htr := requestInterceptor_world config w
  have hf := requestInterceptor_fields config w
  cases hretry : config._retry
  · rw [apiClient]
    generalize hc : requestInterceptor config w = p at *
    obtain ⟨c1, w1⟩ := p
    simp only at hrr htr hf ⊢
    subst htr
    rw [hretry] at hrr
    simp only [transmit, World.log, getItem, hrr, and_true, authService.refreshToken,
      apiClient_retried, requestInterceptor_world, setItem, removeItem, navigate,
      List.append_assoc, List.singleton_append, List.cons_append, List.nil_append]
    cases hout : be (w.trace ++ [Event.getItem StorageKey.authToken]) (Event.request c1) with
    | noResponse m =>
        simp [settle, JsError.status, Event.isRequest, Event.isRefreshCall, Event.isRemoveItem, hf]
    | response s d =>
        by_cases hv : validateStatus s = true
        · simp [settle, hv, Event.isRequest, Event.isRefreshCall, Event.isRemoveItem, hf]
        · by_cases h401 : s = 401
          · subst h401
            cases hrt : truthy (w.store.getItem .refreshToken)
            · simp [settle, hv, JsError.status, hrt, Event.isRequest, Event.isRefreshCall,
                Event.isRemoveItem, hf]
            · cases href : be (w.trace ++ [Event.getItem StorageKey.authToken, Event.request c1,
                  Event.getItem StorageKey.refreshToken])
                (Event.axiosPost (API_BASE_URL ++ "/api/auth/refresh")
                  (Body.refreshToken (toStr (w.store.getItem StorageKey.refreshToken)))) with
              | noResponse m2 =>
                  simp [settle, hv, JsError.status, hrt, href, Event.isRequest,
                    Event.isRefreshCall, Event.isRemoveItem, hf]
              | response s2 d2 =>
                  by_cases hv2 : validateStatus s2 = true
                  · cases hsucc : d2.success
                    · simp [settle, hv, JsError.status, hrt, href, hv2, hsucc, Event.isRequest,
                        Event.isRefreshCall, Event.isRemoveItem, hf]
                    · simp [settle, hv, JsError.status, hrt, href, hv2, hsucc, Event.isRequest,
                        Event.isRefreshCall, Event.isRemoveItem, hf, World.log,
                        requestInterceptor_fields]
                  · simp [settle, hv, JsError.status, hrt, href, hv2, Event.isRequest,
                      Event.isRefreshCall, Event.isRemoveItem, hf]
          · simp [settle, hv, JsError.status, h401, Event.isRequest, Event.isRefreshCall,
              Event.isRemoveItem, hf]
  · rw [apiClient_retried _ _ _ hretry]
    generalize hc : requestInterceptor config w = p at *
    obtain ⟨c1, w1⟩ := p
    simp only at hrr htr hf ⊢
    subst htr
    simp [World.log, Event.isRequest, Event.isRefreshCall, Event.isRemoveItem, hf]

/-! ## Lemmas on the session manager -/

theorem authService_refreshToken_world (be : Backend) (r : String) (w : World) :
    (authService.refreshToken be r w).2
      = w.log (.axiosPost (API_BASE_URL ++ "/api/auth/refresh") (.refreshToken r)) := by
  unfold authService.refreshToken transmit
  split
  · split <;> simp_all
  · simp_all

theorem authService_logout_world (be : Backend) (r : String) (w : World) :
    (authService.logout be r w).2 =
      (apiClient be { method := "post", url := "/auth/logout", data := .refreshToken r,
                      Authorization := none, _retry := false } w).2 := by
  unfold authService.logout
  split <;> simp_all

/-- The `finally` block of `logout` runs on the world its `try` block leaves. -/
theorem logout_world (be : Backend) (w : World) :
    (logout be w).2 =
      dispatch .LOGOUT (removeItem .refreshToken (removeItem .authToken
        (if truthy w.store.refreshToken then
          (authService.logout be (toStr w.store.refreshToken) (w.log (.getItem .refreshToken))).2
         else w.log (.getItem .refreshToken)))) := by
  unfold logout
  simp only [getItem, TokenStore.getItem]
  split
  · generalize authService.logout be (toStr w.store.refreshToken)
      (w.log (.getItem .refreshToken)) = p
    obtain ⟨res, w2⟩ := p
    cases res <;> rfl
  · rfl

theorem logout_trace (be : Backend) (w : World) :
    ∃ ext, (logout be w).2.trace = w.trace ++ ext := by
  rw [logout_world]
  split
  · rw [authService_logout_world]
    obtain ⟨ext, h, _⟩ := apiClient_effects be
      { method := "post", url := "/auth/logout", data := .refreshToken (toStr w.store.refreshToken),
        Authorization := none, _retry := false } (w.log (.getItem .refreshToken))
    simp only [World.log] at h
    exact ⟨[.getItem .refreshToken] ++ ext ++ [.removeItem .authToken, .removeItem .refreshToken],
      by simp [dispatch, removeItem, h, World.log]⟩
  · exact ⟨[.getItem .refreshToken, .removeItem .authToken, .removeItem .refreshToken],
      by simp [dispatch, removeItem, World.log]⟩

/-- The world `refreshAccessToken` leaves: on success the stored and the
session access token are replaced; on failure `logout` has run. -/
theorem refreshAccessToken_world (be : Backend) (r : String) (w : World) :
    (refreshAccessToken be r w).2 =
      (match (authService.refreshToken be r w).1 with
       | .ok response =>
           if response.success then
             dispatch (.REFRESH_TOKEN_SUCCESS response.accessToken)
               (setItem .authToken (toStr response.accessToken)
                 (w.log (.axiosPost (API_BASE_URL ++ "/api/auth/refresh") (.refreshToken r))))
           else
             (logout be
               (w.log (.axiosPost (API_BASE_URL ++ "/api/auth/refresh") (.refreshToken r)))).2
       | .error _ =>
           (logout be
             (w.log (.axiosPost (API_BASE_URL ++ "/api/auth/refresh") (.refreshToken r)))).2) := by
  have hw := authService_refreshToken_world be r w
  unfold refreshAccessToken
  generalize authService.refreshToken be r w = p at *
  obtain ⟨res, w1⟩ := p
  simp only at hw
  subst hw
  cases res with
  | error e =>
      simp only
      generalize logout be _ = q
      obtain ⟨res2, w3⟩ := q
      cases res2 <;> rfl
  | ok d =>
      cases hd : d.success
      · simp only [hd, Bool.false_eq_true, reduceIte]
        generalize logout be _ = q
        obtain ⟨res2, w3⟩ := q
        cases res2 <;> rfl
      · simp [hd]

theorem refreshAccessToken_trace (be : Backend) (r : String) (w : World) :
    ∃ post, (refreshAccessToken be r w).2.trace
      = w.trace ++ .axiosPost (API_BASE_URL ++ "/api/auth/refresh") (.refreshToken r) :: post := by
  rw [refreshAccessToken_world]
  obtain ⟨ext, h⟩ := logout_trace be
    (w.log (.axiosPost (API_BASE_URL ++ "/api/auth/refresh") (.refreshToken r)))
  simp only [World.log] at h
  split
  · split
    · rename_i response _ _
      exact ⟨[.setItem .authToken (toStr response.accessToken)],
        by simp [dispatch, setItem, World.log]⟩
    · exact ⟨ext, by simp [h, World.log]⟩
  · exact ⟨ext, by simp [h, World.log]⟩

theorem authService_verifyToken_world (be : Backend) (t : String) (w : World) :
    (authService.verifyToken be t w).2 =
      (apiClient be { method := "post", url := "/auth/verify", data := .token t,
                      Authorization := none, _retry := false } w).2 := by
  unfold authService.verifyToken
  split <;> simp_all

/-- A first answer 401 to a config not yet marked `_retry`, with a refresh token
stored, is followed by the refresh call. -/
theorem apiClient_unauthorized_trace (be : Backend) (config : RequestConfig) (w : World)
    (r : String) (d : Data) (hfresh : config._retry = false)
    (hr : w.store.refreshToken = some r) (hne : r ≠ "")
    (h401 : be (w.trace ++ [.getItem .authToken]) (.request (requestInterceptor config w).1)
      = .response 401 d) :
    ∃ post, (apiClient be config w).2.trace =
      w.trace ++ [.getItem .authToken, .request (requestInterceptor config w).1,
        .getItem .refreshToken] ++
        .axiosPost (API_BASE_URL ++ "/api/auth/refresh") (.refreshToken r) :: post := by
  have hrr := requestInterceptor_retry config w
  have htr := requestInterceptor_world config w
  generalize hc : requestInterceptor config w = p at *
  obtain ⟨c1, w1⟩ := p
  simp only at hrr h401 htr ⊢
  subst htr
  rw [apiClient]
  have h401s : validateStatus 401 = false := by decide
  simp only [hc, transmit, World.log, h401, settle, h401s]
  simp only [JsError.status, hrr, hfresh, getItem, TokenStore.getItem, hr, truthy, toStr, bne_iff_ne,
    ne_eq, hne, not_false_eq_true, and_self, decide_True, reduceDIte, reduceIte, World.log,
    Bool.false_eq_true]
  have hw := authService_refreshToken_world be r
    { store := w.store, session := w.session, href := w.href,
      trace := w.trace ++ [Event.getItem StorageKey.authToken] ++ [Event.request c1] ++
        [Event.getItem StorageKey.refreshToken] }
  generalize authService.refreshToken be r _ = q at *
  obtain ⟨res, w4⟩ := q
  simp only at hw
  subst hw
  cases res with
  | error e => exact ⟨_, by simp [removeItem, navigate, World.log]; rfl⟩
  | ok d2 =>
      cases hd : d2.success
      · exact ⟨[], by simp [World.log, hd]⟩
      · simp only [hd, reduceIte]
        rw [apiClient_retried _ _ _ rfl]
        exact ⟨_, by simp [World.log, requestInterceptor_world, setItem]; rfl⟩

/-- After the verify call, `initializeAuth` only adds to the trace; when verify
resolved to a body whose `success` is falsy and a refresh token was read, what it
adds starts with the refresh call. -/
theorem initializeAuth_after_verify (be : Backend) (w : World) (t : String)
    (ht : w.store.authToken = some t) (htne : t ≠ "") :
    ∃ tail, (initializeAuth be w).2.trace =
        (authService.verifyToken be t (dispatch .VERIFY_TOKEN_START
          ((w.log (.getItem .authToken)).log (.getItem .refreshToken)))).2.trace ++ tail ∧
      (∀ r d, w.store.refreshToken = some r → r ≠ "" →
        (authService.verifyToken be t (dispatch .VERIFY_TOKEN_START
          ((w.log (.getItem .authToken)).log (.getItem .refreshToken)))).1 = .ok d →
        d.success = false →
        ∃ post, tail =
          .axiosPost (API_BASE_URL ++ "/api/auth/refresh") (.refreshToken r) :: post) := by
  unfold initializeAuth
  simp only [getItem, TokenStore.getItem, ht, truthy, toStr, bne_iff_ne, ne_eq, htne,
    not_false_eq_true, decide_True, reduceIte, World.log]
  generalize authService.verifyToken be t _ = p
  obtain ⟨res, w3⟩ := p
  cases res with
  | error e =>
      exact ⟨[.removeItem .authToken, .removeItem .refreshToken],
        by simp [dispatch, removeItem], by simp⟩
  | ok d =>
      cases hd : d.success
      · simp only [hd, Bool.false_eq_true, reduceIte]
        cases hrt : w.store.refreshToken with
        | none =>
            exact ⟨[.removeItem .authToken, .removeItem .refreshToken],
              by simp [dispatch, removeItem], by simp⟩
        | some r =>
            by_cases hne : r = ""
            · subst hne
              exact ⟨[.removeItem .authToken, .removeItem .refreshToken],
                by simp [dispatch, removeItem], by simp⟩
            · obtain ⟨post, hp⟩ := refreshAccessToken_trace be r w3
              simp only [reduceIte, hne, bne_iff_ne, ne_eq, not_false_eq_true, decide_True]
              generalize refreshAccessToken be r w3 = q at *
              obtain ⟨res2, w4⟩ := q
              simp only at hp
              cases res2 with
              | ok a =>
                  exact ⟨_, by simp only [hp]; rfl, by simp⟩
              | error e =>
                  refine ⟨.axiosPost (API_BASE_URL ++ "/api/auth/refresh") (.refreshToken r)
                    :: (post ++ [.removeItem .authToken, .removeItem .refreshToken]), ?_, ?_⟩
                  · simp [dispatch, removeItem, hp]
                  · simp
      · exact ⟨[], by simp [dispatch, hd], by simp [hd]⟩

/-! ## Claims -/

/-- C1 (the code at the failing input): with an expired access token and a valid
refresh token stored, a verify answer `{ success: false }` and a refresh answer
`{ success: true, accessToken: "new-a1" }`, `initializeAuth` persists the new
access token and keeps the refresh token, but the session it leaves has
`isAuthenticated` false and no user. -/
theorem C1_initialize_refresh_leaves_unauthenticated :
    (initializeAuth (scripted (.response 200 failureBody) (.response 200 refreshedBody))
        bootWorld).2.store
      = { authToken := some "new-a1", refreshToken := some "valid-r1" } ∧
    (initializeAuth (scripted (.response 200 failureBody) (.response 200 refreshedBody))
        bootWorld).2.session
      = { user := none, token := some "new-a1", refreshToken := none,
          isAuthenticated := false, isLoading := false, error := none } := by
  simp [initializeAuth, authService.verifyToken, apiClient, requestInterceptor, getItem,
    bootWorld, scripted, failureBody, refreshedBody, TokenStore.getItem, truthy, transmit,
    settle, validateStatus, World.log, dispatch, toStr, refreshAccessToken,
    authService.refreshToken, setItem, authReducer, authInitialState, TokenStore.setItem]

/-- C2 (counterexample): when the verify request times out, `initializeAuth`
removes both tokens although a refresh token is stored, and no refresh call is
ever made. -/
theorem C2_timeout_purges_without_refresh :
    bootWorld.store.refreshToken = some "valid-r1" ∧
    (initializeAuth (scripted (.noResponse "timeout of 10000ms exceeded")
        (.response 200 refreshedBody)) bootWorld).2.trace
      = [.getItem .authToken, .getItem .refreshToken, .getItem .authToken,
         .request (sentVerifyConfig "expired"),
         .removeItem .authToken, .removeItem .refreshToken] ∧
    (initializeAuth (scripted (.noResponse "timeout of 10000ms exceeded")
        (.response 200 refreshedBody)) bootWorld).2.store
      = { authToken := none, refreshToken := none } := by
  simp [initializeAuth, authService.verifyToken, apiClient, requestInterceptor, getItem,
    bootWorld, scripted, TokenStore.getItem, truthy, transmit, settle, World.log, dispatch,
    toStr, removeItem, TokenStore.removeItem, JsError.status, sentVerifyConfig]

/-- C2 (amended): when the backend answers the verify request of `initializeAuth`
with a `{ success: false }` body or with status 401, and a refresh token is
stored, the refresh endpoint is called with that refresh token before any
`removeItem`. -/
theorem C2_initialize_refreshes_before_purge (be : Backend) (w : World) (t r : String)
    (s : Nat) (d : Data)
    (ht : w.store.authToken = some t) (htne : t ≠ "")
    (hr : w.store.refreshToken = some r) (hrne : r ≠ "")
    (hverify : be (w.trace ++ [.getItem .authToken, .getItem .refreshToken, .getItem .authToken])
      (.request (sentVerifyConfig t)) = .response s d)
    (hrej : (validateStatus s = true ∧ d.success = false) ∨ s = 401) :
    ∃ pre post, (initializeAuth be w).2.trace =
        w.trace ++ pre ++
          .axiosPost (API_BASE_URL ++ "/api/auth/refresh") (.refreshToken r) :: post ∧
      pre.filter Event.isRemoveItem = [] := by
  obtain ⟨tail, htail, hbranch⟩ := initializeAuth_after_verify be w t ht htne
  have hc : requestInterceptor
      { method := "post", url := "/auth/verify", data := .token t,
        Authorization := none, _retry := false }
      (dispatch .VERIFY_TOKEN_START ((w.log (.getItem .authToken)).log (.getItem .refreshToken)))
      = (sentVerifyConfig t,
          (dispatch .VERIFY_TOKEN_START
            ((w.log (.getItem .authToken)).log (.getItem .refreshToken))).log
            (.getItem .authToken)) := by
    simp [requestInterceptor, getItem, dispatch, World.log, TokenStore.getItem, ht, truthy, htne,
      toStr, sentVerifyConfig]
  rcases hrej with ⟨hv, hd⟩ | h401
  · have hres : authService.verifyToken be t (dispatch .VERIFY_TOKEN_START
        ((w.log (.getItem .authToken)).log (.getItem .refreshToken)))
        = (.ok d, ((dispatch .VERIFY_TOKEN_START
            ((w.log (.getItem .authToken)).log (.getItem .refreshToken))).log
            (.getItem .authToken)).log (.request (sentVerifyConfig t))) := by
      unfold authService.verifyToken
      rw [apiClient]
      simp only [hc, transmit]
      have hb : be ((dispatch .VERIFY_TOKEN_START
          ((w.log (.getItem .authToken)).log (.getItem .refreshToken))).log
          (.getItem .authToken)).trace (.request (sentVerifyConfig t)) = .response s d := by
        rw [← hverify]
        simp [dispatch, World.log]
      simp [hb, settle, hv]
    obtain ⟨post, hpost⟩ := hbranch r d hr hrne (by rw [hres]) hd
    refine ⟨[.getItem .authToken, .getItem .refreshToken, .getItem .authToken,
      .request (sentVerifyConfig t)], post, ?_, by simp [Event.isRemoveItem]⟩
    rw [htail, hres, hpost]
    simp [dispatch, World.log]
  · subst h401
    obtain ⟨post, hpost⟩ := apiClient_unauthorized_trace be
      { method := "post", url := "/auth/verify", data := .token t,
        Authorization := none, _retry := false }
      (dispatch .VERIFY_TOKEN_START ((w.log (.getItem .authToken)).log (.getItem .refreshToken)))
      r d rfl (by simpa [dispatch, World.log] using hr) hrne
      (by rw [hc, ← hverify]; simp [dispatch, World.log])
    refine ⟨[.getItem .authToken, .getItem .refreshToken, .getItem .authToken,
      .request (sentVerifyConfig t), .getItem .refreshToken], post ++ tail, ?_,
      by simp [Event.isRemoveItem]⟩
    rw [htail, authService_verifyToken_world, hpost, hc]
    simp [dispatch, World.log]

/-- C2 (witness): the boot scenario with a verify answer `{ success: false }`. -/
theorem C2_initialize_refreshes_before_purge_witness :
    ∃ pre post,
      (initializeAuth (scripted (.response 200 failureBody) (.response 200 refreshedBody))
          bootWorld).2.trace =
        bootWorld.trace ++ pre ++
          .axiosPost (API_BASE_URL ++ "/api/auth/refresh") (.refreshToken "valid-r1") :: post ∧
      pre.filter Event.isRemoveItem = [] :=
  C2_initialize_refreshes_before_purge
    (scripted (.response 200 failureBody) (.response 200 refreshedBody)) bootWorld
    "expired" "valid-r1" 200 failureBody rfl (by decide) rfl (by decide) rfl
    (Or.inl ⟨by decide, rfl⟩)

/-- C3 (counterexample): a `VERIFY_TOKEN_SUCCESS` whose payload has no user
(a verify body `{ success: true }` without `user`) gives a session with
`isAuthenticated` true and `user` null. -/
theorem C3_authenticated_without_user :
    (sessionAfter [.VERIFY_TOKEN_START, .VERIFY_TOKEN_SUCCESS none (some "a1") (some "r1")]).isAuthenticated
      = true ∧
    (sessionAfter [.VERIFY_TOKEN_START, .VERIFY_TOKEN_SUCCESS none (some "a1") (some "r1")]).user
      = none := by
  simp [sessionAfter, authReducer, authInitialState]

/-- The invariant of C3 is kept by every step whose payload carries a user. -/
theorem authReducer_user_iff (state : AuthState) (action : Action)
    (hs : state.isAuthenticated = true ↔ state.user.isSome = true)
    (ha : action.carriesUser = true) :
    (authReducer state action).isAuthenticated = true ↔
      (authReducer state action).user.isSome = true := by
  cases action <;> simp_all [authReducer, Action.carriesUser, authInitialState]

theorem foldl_authReducer_user_iff (actions : List Action) (state : AuthState)
    (hs : state.isAuthenticated = true ↔ state.user.isSome = true)
    (ha : ∀ a ∈ actions, a.carriesUser = true) :
    (actions.foldl authReducer state).isAuthenticated = true ↔
      (actions.foldl authReducer state).user.isSome = true := by
  induction actions generalizing state with
  | nil => simpa using hs
  | cons a rest ih =>
      simp only [List.foldl_cons]
      exact ih _ (authReducer_user_iff state a hs (ha a (by simp)))
        (fun b hb => ha b (by simp [hb]))

/-- C3 (amended): for every sequence of actions applied to the initial session in
which each `LOGIN_SUCCESS` and `VERIFY_TOKEN_SUCCESS` payload carries a non-null
user, `isAuthenticated` is true if and only if `user` is present. -/
theorem C3_authenticated_iff_user (actions : List Action)
    (ha : ∀ a ∈ actions, a.carriesUser = true) :
    (sessionAfter actions).isAuthenticated = true ↔ (sessionAfter actions).user.isSome = true :=
  foldl_authReducer_user_iff actions authInitialState (by simp [authInitialState]) ha

/-- C3 (witness): a login that succeeds with a user, followed by `CLEAR_ERROR`. -/
theorem C3_authenticated_iff_user_witness :
    (sessionAfter [.LOGIN_START, .LOGIN_SUCCESS (some ada) (some "a1") (some "r1"), .CLEAR_ERROR]).isAuthenticated
        = true ↔
      (sessionAfter [.LOGIN_START, .LOGIN_SUCCESS (some ada) (some "a1") (some "r1"), .CLEAR_ERROR]).user.isSome
        = true :=
  C3_authenticated_iff_user
    [.LOGIN_START, .LOGIN_SUCCESS (some ada) (some "a1") (some "r1"), .CLEAR_ERROR]
    (by simp [Action.carriesUser])

/-- C4 (the code at the failing input): with a stored access token that verify
accepts, `initializeAuth` dispatches `VERIFY_TOKEN_SUCCESS` with the token in its
payload, the reducer drops it, and the session ends with `isAuthenticated` true
while `token` is still null. -/
theorem C4_initialize_authenticated_without_token :
    (initializeAuth (scripted (.response 200 verifiedBody) (.response 200 refreshedBody))
        bootWorld).2.session
      = { user := some ada, token := none, refreshToken := none,
          isAuthenticated := true, isLoading := false, error := none } := by
  simp [initializeAuth, authService.verifyToken, apiClient, requestInterceptor, getItem,
    bootWorld, scripted, verifiedBody, TokenStore.getItem, truthy, transmit, settle,
    validateStatus, World.log, dispatch, toStr, authReducer, authInitialState]

/-- C5 (the code at the failing input): a request answered 401 while a refresh
token is stored, with the refresh answered `{ success: false }`, is rejected with
both tokens still in storage and without any navigation. -/
theorem C5_unsuccessful_refresh_keeps_tokens :
    (apiClient (scripted (.response 401 failureBody) (.response 200 failureBody))
        getUsersConfig bootWorld).2.store
      = { authToken := some "expired", refreshToken := some "valid-r1" } ∧
    (apiClient (scripted (.response 401 failureBody) (.response 200 failureBody))
        getUsersConfig bootWorld).2.href = none := by
  simp [apiClient, requestInterceptor, getItem, bootWorld, scripted, failureBody,
    getUsersConfig, TokenStore.getItem, truthy, transmit, settle, validateStatus, World.log,
    toStr, authService.refreshToken, JsError.status]

/-- C6 (counterexample): a request answered 401 whose refresh call gets no
response is rejected with the error thrown by the refresh call, which carries no
401 response, and not with the failure of the request. -/
theorem C6_refresh_error_reaches_caller :
    (apiClient (scripted (.response 401 failureBody) (.noResponse "Network Error"))
        getUsersConfig bootWorld).1
      = .error (.error "Token refresh failed") ∧
    (JsError.error "Token refresh failed").status = none := by
  simp [apiClient, requestInterceptor, getItem, bootWorld, scripted, failureBody,
    getUsersConfig, TokenStore.getItem, truthy, transmit, settle, validateStatus, World.log,
    toStr, authService.refreshToken, JsError.status]

/-- C6 (amended): for every request through `apiClient` that is answered 401
while a refresh token is stored and whose refresh attempt fails, the request is
sent once only (no replay); the caller receives the 401 failure of the request
when the refresh returned a body whose `success` is falsy, and the error thrown
by the refresh call when it threw. -/
theorem C6_failed_refresh_rejects_without_replay (be : Backend) (config : RequestConfig)
    (w : World) (r : String) (d1 : Data)
    (hfresh : config._retry = false)
    (hr : w.store.refreshToken = some r) (hne : r ≠ "")
    (h401 : be (w.trace ++ [.getItem .authToken]) (.request (requestInterceptor config w).1)
      = .response 401 d1)
    (hfail : refreshFailed (authService.refreshToken be r
      (((w.log (.getItem .authToken)).log (.request (requestInterceptor config w).1)).log
        (.getItem .refreshToken))).1 = true) :
    (apiClient be config w).1 =
      .error (match (authService.refreshToken be r
          (((w.log (.getItem .authToken)).log (.request (requestInterceptor config w).1)).log
            (.getItem .refreshToken))).1 with
        | .error refreshError => refreshError
        | .ok _ => .axios (statusMessage 401)
            { (requestInterceptor config w).1 with _retry := true } (some ⟨401, d1⟩)) ∧
    (apiClient be config w).2.trace.filter Event.isRequest =
      w.trace.filter Event.isRequest ++ [.request (requestInterceptor config w).1] := by
  have hrr := requestInterceptor_retry config w
  have htr := requestInterceptor_world config w
  generalize hc : requestInterceptor config w = p at *
  obtain ⟨c1, w1⟩ := p
  simp only at hrr h401 htr hfail ⊢
  subst htr
  rw [apiClient]
  have h401s : validateStatus 401 = false := by decide
  simp only [hc, transmit, World.log, h401, settle, h401s]
  simp only [JsError.status, hrr, hfresh, getItem, TokenStore.getItem, hr, truthy, toStr, bne_iff_ne,
    ne_eq, hne, not_false_eq_true, and_self, decide_True, reduceDIte, reduceIte, World.log,
    Bool.false_eq_true]
  simp only [World.log] at hfail
  have hw := authService_refreshToken_world be r
    { store := w.store, session := w.session, href := w.href,
      trace := w.trace ++ [Event.getItem StorageKey.authToken] ++ [Event.request c1] ++
        [Event.getItem StorageKey.refreshToken] }
  generalize authService.refreshToken be r _ = q at *
  obtain ⟨res, w4⟩ := q
  simp only at hw hfail
  subst hw
  cases res with
  | error e =>
      simp [removeItem, navigate, World.log, Event.isRequest]
  | ok d2 =>
      have hd : d2.success = false := by simpa [refreshFailed] using hfail
      simp [hd, World.log, Event.isRequest, JsError.markRetry]

/-- C6 (witness): a request answered 401 whose refresh is answered
`{ success: false }`. -/
theorem C6_failed_refresh_rejects_without_replay_witness :
    (apiClient (scripted (.response 401 failureBody) (.response 200 failureBody))
        getUsersConfig bootWorld).1 =
      .error (match (authService.refreshToken
          (scripted (.response 401 failureBody) (.response 200 failureBody)) "valid-r1"
          (((bootWorld.log (.getItem .authToken)).log
            (.request (requestInterceptor getUsersConfig bootWorld).1)).log
            (.getItem .refreshToken))).1 with
        | .error refreshError => refreshError
        | .ok _ => .axios (statusMessage 401)
            { (requestInterceptor getUsersConfig bootWorld).1 with _retry := true }
            (some ⟨401, failureBody⟩)) ∧
    (apiClient (scripted (.response 401 failureBody) (.response 200 failureBody))
        getUsersConfig bootWorld).2.trace.filter Event.isRequest =
      bootWorld.trace.filter Event.isRequest ++
        [.request (requestInterceptor getUsersConfig bootWorld).1] :=
  C6_failed_refresh_rejects_without_replay
    (scripted (.response 401 failureBody) (.response 200 failureBody))
    getUsersConfig bootWorld "valid-r1" failureBody rfl rfl (by decide) rfl
    (by simp [refreshFailed, authService.refreshToken, transmit, scripted, validateStatus,
      failureBody])

/-- C7: for every request through `apiClient` that is answered 401 while a
refresh token is stored and whose refresh succeeds with access token `a`, `a` is
written to storage, the request is replayed exactly once, marked `_retry` and
carrying `Bearer a`, and the caller receives what that replay settles to. -/
theorem C7_successful_refresh_replays_once (be : Backend) (config : RequestConfig) (w : World)
    (r a : String) (d1 d2 : Data) (s2 : Nat)
    (hfresh : config._retry = false)
    (hr : w.store.refreshToken = some r) (hne : r ≠ "")
    (h401 : be (w.trace ++ [.getItem .authToken]) (.request (requestInterceptor config w).1)
      = .response 401 d1)
    (href : be (w.trace ++ [.getItem .authToken, .request (requestInterceptor config w).1,
        .getItem .refreshToken])
        (.axiosPost (API_BASE_URL ++ "/api/auth/refresh") (.refreshToken r)) = .response s2 d2)
    (hs2 : validateStatus s2 = true) (hsucc : d2.success = true)
    (ha : d2.accessToken = some a) :
    (apiClient be config w).2.store.authToken = some a ∧
    (apiClient be config w).2.trace =
      w.trace ++ [.getItem .authToken, .request (requestInterceptor config w).1,
        .getItem .refreshToken,
        .axiosPost (API_BASE_URL ++ "/api/auth/refresh") (.refreshToken r),
        .setItem .authToken a, .getItem .authToken,
        .request { (requestInterceptor config w).1 with
                   _retry := true, Authorization := some ("Bearer " ++ a) }] ∧
    (apiClient be config w).1 =
      settle { (requestInterceptor config w).1 with
               _retry := true, Authorization := some ("Bearer " ++ a) }
        (be (w.trace ++ [.getItem .authToken, .request (requestInterceptor config w).1,
              .getItem .refreshToken,
              .axiosPost (API_BASE_URL ++ "/api/auth/refresh") (.refreshToken r),
              .setItem .authToken a, .getItem .authToken])
          (.request { (requestInterceptor config w).1 with
                      _retry := true, Authorization := some ("Bearer " ++ a) })) := by
  have hrr := requestInterceptor_retry config w
  have htr := requestInterceptor_world config w
  generalize hc : requestInterceptor config w = p at *
  obtain ⟨c1, w1⟩ := p
  simp only at hrr h401 href htr ⊢
  subst htr
  rw [apiClient]
  have h401s : validateStatus 401 = false := by decide
  simp only [hc, transmit, World.log, h401, settle, h401s]
  have hrep : ∀ w2 : World, w2.store.authToken = some a →
      (requestInterceptor { c1 with _retry := true, Authorization := some ("Bearer " ++ a) } w2).1
        = { c1 with _retry := true, Authorization := some ("Bearer " ++ a) } :=
    fun w2 h2 => requestInterceptor_bearer _ w2 a rfl h2
  simp [JsError.status, hrr, hfresh, getItem, TokenStore.getItem, hr, truthy, hne,
    authService.refreshToken, transmit, World.log, toStr, href, hs2, hsucc, ha,
    apiClient_retried, setItem, requestInterceptor_world, hrep, TokenStore.setItem, settle]

/-- C7 (witness): against a backend that accepts only the refreshed token, the
replay succeeds and the caller receives its response. -/
theorem C7_successful_refresh_replays_once_witness :
    (apiClient tokenChecking getUsersConfig bootWorld).2.store.authToken = some "new-a1" ∧
    (apiClient tokenChecking getUsersConfig bootWorld).1 = .ok ⟨200, verifiedBody⟩ := by
  have h := C7_successful_refresh_replays_once tokenChecking getUsersConfig bootWorld
    "valid-r1" "new-a1" failureBody refreshedBody 200 rfl rfl (by decide)
    (by simp [tokenChecking, requestInterceptor, getItem, bootWorld, TokenStore.getItem, truthy,
      toStr, getUsersConfig])
    rfl (by decide) rfl rfl
  refine ⟨h.1, ?_⟩
  rw [h.2.2]
  simp [settle, tokenChecking, validateStatus]

/-- C9: for every storage content and every backend, after `logout` both storage
keys are absent and the session is the empty unauthenticated shape. -/
theorem C9_logout_clears_storage_and_session (be : Backend) (w : World) :
    (logout be w).2.store = { authToken := none, refreshToken := none } ∧
    (logout be w).2.session =
      { user := none, token := none, refreshToken := none,
        isAuthenticated := false, isLoading := false, error := none } := by
  rw [logout_world]
  simp [dispatch, removeItem, TokenStore.removeItem, authReducer, authInitialState]

/-- C11: for every boot state without a (non-empty) stored access token,
`initializeAuth` only reads the two keys, so it makes no backend call, and the
session ends with `isAuthenticated` false, `user` null, `error` null and
`isLoading` false. -/
theorem C11_initialize_without_token (be : Backend) (w : World)
    (ht : truthy w.store.authToken = false) :
    (initializeAuth be w).2.trace = w.trace ++ [.getItem .authToken, .getItem .refreshToken] ∧
    (initializeAuth be w).2.session =
      { user := none, token := none, refreshToken := none,
        isAuthenticated := false, isLoading := false, error := none } := by
  simp [initializeAuth, getItem, TokenStore.getItem, ht, dispatch, World.log, authReducer]

/-- C11 (witness): a boot with empty storage. -/
theorem C11_initialize_without_token_witness :
    (initializeAuth (scripted (.response 200 verifiedBody) (.response 200 refreshedBody))
        emptyWorld).2.trace = emptyWorld.trace ++ [.getItem .authToken, .getItem .refreshToken] ∧
    (initializeAuth (scripted (.response 200 verifiedBody) (.response 200 refreshedBody))
        emptyWorld).2.session =
      { user := none, token := none, refreshToken := none,
        isAuthenticated := false, isLoading := false, error := none } :=
  C11_initialize_without_token _ emptyWorld rfl

/-- What `authService.verifyToken` does when the backend answers the request
with a status that passes `validateStatus`: it resolves to the body, and only the
read of the access token and the request are added to the trace. -/
theorem authService_verifyToken_resolved (be : Backend) (t : String) (w : World)
    (s : Nat) (d : Data)
    (hverify : be (w.trace ++ [.getItem .authToken])
      (.request (requestInterceptor
        { method := "post", url := "/auth/verify", data := .token t,
          Authorization := none, _retry := false } w).1) = .response s d)
    (hs : validateStatus s = true) :
    authService.verifyToken be t w =
      (.ok d, (w.log (.getItem .authToken)).log
        (.request (requestInterceptor
          { method := "post", url := "/auth/verify", data := .token t,
            Authorization := none, _retry := false } w).1)) := by
  have htr := requestInterceptor_world
    { method := "post", url := "/auth/verify", data := .token t,
      Authorization := none, _retry := false } w
  unfold authService.verifyToken
  rw [apiClient]
  generalize hc : requestInterceptor _ w = p at *
  obtain ⟨c1, w1⟩ := p
  simp only at htr hverify ⊢
  subst htr
  simp [transmit, World.log, hverify, settle, hs]

/-- The verify request of `initializeAuth` leaves the request interceptor with
the stored access token as its bearer. -/
theorem requestInterceptor_verifying (w : World) (t : String)
    (ht : w.store.authToken = some t) (htne : t ≠ "") :
    (requestInterceptor
      { method := "post", url := "/auth/verify", data := .token t,
        Authorization := none, _retry := false } (verifying w)).1 = sentVerifyConfig t := by
  simp [requestInterceptor, getItem, verifying, dispatch, World.log, TokenStore.getItem, ht,
    truthy, htne, toStr, sentVerifyConfig]

/-- C12: for every boot state whose stored access token the backend accepts
(the verify request is answered with a `{ success: true, user }` body),
`initializeAuth` ends with `isAuthenticated` true, `user` the user of the
response, `isLoading` false, `error` null, and storage as it was. -/
theorem C12_initialize_with_valid_token (be : Backend) (w : World) (t : String)
    (s : Nat) (d : Data)
    (ht : w.store.authToken = some t) (htne : t ≠ "")
    (hverify : be (w.trace ++ [.getItem .authToken, .getItem .refreshToken, .getItem .authToken])
      (.request (sentVerifyConfig t)) = .response s d)
    (hs : validateStatus s = true) (hd : d.success = true) :
    (initializeAuth be w).2.session.isAuthenticated = true ∧
    (initializeAuth be w).2.session.user = d.user ∧
    (initializeAuth be w).2.session.isLoading = false ∧
    (initializeAuth be w).2.session.error = none ∧
    (initializeAuth be w).2.store = w.store := by
  have hc := requestInterceptor_verifying w t ht htne
  have hres := authService_verifyToken_resolved be t (verifying w) s d
    (by rw [hc, ← hverify]; simp [verifying, dispatch, World.log]) hs
  unfold initializeAuth
  simp only [getItem, TokenStore.getItem, ht, truthy, toStr, bne_iff_ne, ne_eq, htne,
    not_false_eq_true, decide_True, reduceIte]
  have hw : dispatch .VERIFY_TOKEN_START
      ((w.log (.getItem .authToken)).log (.getItem .refreshToken)) = verifying w := rfl
  rw [hw, hres]
  simp [hd, dispatch, World.log, authReducer, verifying]

/-- C12 (witness): the boot scenario with a verify answer `{ success: true, user }`. -/
theorem C12_initialize_with_valid_token_witness :
    (initializeAuth (scripted (.response 200 verifiedBody) (.response 200 refreshedBody))
        bootWorld).2.session.isAuthenticated = true ∧
    (initializeAuth (scripted (.response 200 verifiedBody) (.response 200 refreshedBody))
        bootWorld).2.session.user = verifiedBody.user ∧
    (initializeAuth (scripted (.response 200 verifiedBody) (.response 200 refreshedBody))
        bootWorld).2.session.isLoading = false ∧
    (initializeAuth (scripted (.response 200 verifiedBody) (.response 200 refreshedBody))
        bootWorld).2.session.error = none ∧
    (initializeAuth (scripted (.response 200 verifiedBody) (.response 200 refreshedBody))
        bootWorld).2.store = bootWorld.store :=
  C12_initialize_with_valid_token _ bootWorld "expired" 200 verifiedBody rfl (by decide) rfl
    (by decide) rfl

/-! ## Lemmas on failure paths -/

theorem logout_ok (be : Backend) (w : World) : (logout be w).1 = .ok () := by
  unfold logout
  split
  rfl

theorem logout_store (be : Backend) (w : World) :
    (logout be w).2.store = { authToken := none, refreshToken := none } := by
  rw [logout_world]
  simp [dispatch, removeItem, TokenStore.removeItem]

theorem logout_session (be : Backend) (w : World) :
    (logout be w).2.session =
      { user := none, token := none, refreshToken := none,
        isAuthenticated := false, isLoading := false, error := none } := by
  rw [logout_world]
  simp [dispatch, authReducer, authInitialState]

/-- What `refreshAccessToken` resolves or rejects with. -/
theorem refreshAccessToken_result (be : Backend) (r : String) (w : World) :
    (refreshAccessToken be r w).1 =
      (match (authService.refreshToken be r w).1 with
       | .ok response =>
           if response.success then .ok response.accessToken
           else .error (.error "Token refresh failed")
       | .error error => .error error) := by
  unfold refreshAccessToken
  generalize authService.refreshToken be r w = p
  obtain ⟨res, w1⟩ := p
  cases res with
  | error e =>
      simp only
      have h := logout_ok be w1
      generalize logout be w1 = q at *
      obtain ⟨res2, w3⟩ := q
      simp only at h
      subst h
      rfl
  | ok d =>
      cases hd : d.success
      · simp only [hd, Bool.false_eq_true, reduceIte]
        have h := logout_ok be w1
        generalize logout be w1 = q at *
        obtain ⟨res2, w3⟩ := q
        simp only at h
        subst h
        rfl
      · simp [hd]

/-- A failed `initializeAuth` ends with empty storage and the fixed session
`sessionExpired`. -/
theorem initializeAuth_failed (be : Backend) (w : World) (t : String)
    (ht : w.store.authToken = some t) (htne : t ≠ "")
    (hfail : initializeFails be w t = true) :
    (initializeAuth be w).2.store = { authToken := none, refreshToken := none } ∧
    (initializeAuth be w).2.session = sessionExpired := by
  have htt : truthy (some t) = true := by simp [truthy, htne]
  have hts : toStr (some t) = t := rfl
  unfold initializeAuth
  simp only [getItem, TokenStore.getItem, ht, htt, hts, reduceIte]
  have hw : dispatch .VERIFY_TOKEN_START
      ((w.log (.getItem .authToken)).log (.getItem .refreshToken)) = verifying w := rfl
  rw [hw]
  unfold initializeFails at hfail
  generalize authService.verifyToken be t (verifying w) = p at *
  obtain ⟨res, w3⟩ := p
  cases res with
  | error e =>
      simp [dispatch, removeItem, TokenStore.removeItem, authReducer, sessionExpired]
  | ok d =>
      simp only [Bool.and_eq_true, Bool.not_eq_true', Bool.or_eq_true] at hfail
      obtain ⟨hd, hrec⟩ := hfail
      simp only [hd, Bool.false_eq_true, reduceIte]
      cases hrt : truthy w.store.refreshToken
      · have hrt2 : (World.log w (Event.getItem StorageKey.authToken)).store.refreshToken
            = w.store.refreshToken := rfl
        simp [hrt2, hrt, dispatch, removeItem, TokenStore.removeItem, authReducer,
          sessionExpired]
      · have hrf : refreshFailed
            (authService.refreshToken be (toStr w.store.refreshToken) w3).1 = true := by
          rcases hrec with h | h
          · rw [hrt] at h; exact absurd h (by decide)
          · exact h
        have hres := refreshAccessToken_result be (toStr w.store.refreshToken) w3
        have hrt2 : (World.log w (Event.getItem StorageKey.authToken)).store.refreshToken
            = w.store.refreshToken := rfl
        simp only [hrt2, hrt, reduceIte]
        generalize refreshAccessToken be (toStr w.store.refreshToken) w3 = q at *
        obtain ⟨res2, w4⟩ := q
        simp only at hres
        generalize (authService.refreshToken be (toStr w.store.refreshToken) w3).1 = rr at *
        cases rr with
        | error e2 =>
            simp only at hres
            subst hres
            simp [dispatch, removeItem, TokenStore.removeItem, authReducer, sessionExpired]
        | ok d2 =>
            have hd2 : d2.success = false := by simpa [refreshFailed] using hrf
            simp only [hd2, Bool.false_eq_true, reduceIte] at hres
            subst hres
            simp [dispatch, removeItem, TokenStore.removeItem, authReducer, sessionExpired]

/-! ## Claims on failed and recovered initialisation -/

/-- C13: for every boot state with a stored access token whose verification
fails (the verify call throws, or resolves to `{ success: false }` while the
refresh token is absent or the refresh fails), `initializeAuth` ends with
`isAuthenticated` false, `user` null, `isLoading` false and both storage keys
absent. -/
theorem C13_initialize_failure_purges (be : Backend) (w : World) (t : String)
    (ht : w.store.authToken = some t) (htne : t ≠ "")
    (hfail : initializeFails be w t = true) :
    (initializeAuth be w).2.session.isAuthenticated = false ∧
    (initializeAuth be w).2.session.user = none ∧
    (initializeAuth be w).2.session.isLoading = false ∧
    (initializeAuth be w).2.store = { authToken := none, refreshToken := none } := by
  obtain ⟨hstore, hsession⟩ := initializeAuth_failed be w t ht htne hfail
  rw [hsession, hstore]
  simp [sessionExpired]

/-- C13 (witness): the boot scenario with a verify answer `{ success: false }`
and a refresh call that gets no response. -/
theorem C13_initialize_failure_purges_witness :
    (initializeAuth (scripted (.response 200 failureBody) (.noResponse "Network Error"))
        bootWorld).2.session.isAuthenticated = false ∧
    (initializeAuth (scripted (.response 200 failureBody) (.noResponse "Network Error"))
        bootWorld).2.session.user = none ∧
    (initializeAuth (scripted (.response 200 failureBody) (.noResponse "Network Error"))
        bootWorld).2.session.isLoading = false ∧
    (initializeAuth (scripted (.response 200 failureBody) (.noResponse "Network Error"))
        bootWorld).2.store = { authToken := none, refreshToken := none } :=
  C13_initialize_failure_purges _ bootWorld "expired" rfl (by decide)
    (by simp [initializeFails, authService.verifyToken, apiClient, requestInterceptor, getItem,
      verifying, bootWorld, scripted, failureBody, TokenStore.getItem, truthy, transmit, settle,
      validateStatus, World.log, dispatch, toStr, authService.refreshToken, refreshFailed])

/-- C14: any two failed runs of `initializeAuth` from the same world end in the
same session, whatever the backends answered, and its `error` is the fixed
string `Session expired`. -/
theorem C14_failure_reason_not_surfaced (be1 be2 : Backend) (w : World) (t : String)
    (ht : w.store.authToken = some t) (htne : t ≠ "")
    (h1 : initializeFails be1 w t = true) (h2 : initializeFails be2 w t = true) :
    (initializeAuth be1 w).2.session = (initializeAuth be2 w).2.session ∧
    (initializeAuth be1 w).2.session.error = some "Session expired" := by
  rw [(initializeAuth_failed be1 w t ht htne h1).2, (initializeAuth_failed be2 w t ht htne h2).2]
  simp [sessionExpired]

/-- C14 (witness): a verify call that times out against one that is answered
500 with a message. -/
theorem C14_failure_reason_not_surfaced_witness :
    (initializeAuth (scripted (.noResponse "timeout of 10000ms exceeded")
        (.response 200 refreshedBody)) bootWorld).2.session =
      (initializeAuth (scripted (.response 500 unavailableBody)
        (.response 200 refreshedBody)) bootWorld).2.session ∧
    (initializeAuth (scripted (.noResponse "timeout of 10000ms exceeded")
        (.response 200 refreshedBody)) bootWorld).2.session.error = some "Session expired" :=
  C14_failure_reason_not_surfaced _ _ bootWorld "expired" rfl (by decide)
    (by simp [initializeFails, authService.verifyToken, apiClient, requestInterceptor, getItem,
      verifying, bootWorld, scripted, TokenStore.getItem, truthy, transmit, settle,
      World.log, dispatch, toStr, JsError.status])
    (by simp [initializeFails, authService.verifyToken, apiClient, requestInterceptor, getItem,
      verifying, bootWorld, scripted, unavailableBody, TokenStore.getItem, truthy, transmit,
      settle, validateStatus, World.log, dispatch, toStr, JsError.status])

/-- C15: when the stored access token `t` is answered `{ success: false }` by
verify and the stored refresh token `r` is answered `{ success: true,
accessToken: a }` by refresh, `initializeAuth` sends exactly one verify request
(for `t`, before the refresh) and leaves storage as `{ authToken: a,
refreshToken: r }`. -/
theorem C15_refresh_is_trusted (be : Backend) (w : World) (t r a : String)
    (s s2 : Nat) (d d2 : Data)
    (ht : w.store.authToken = some t) (htne : t ≠ "")
    (hr : w.store.refreshToken = some r) (hrne : r ≠ "")
    (hverify : be (w.trace ++ [.getItem .authToken, .getItem .refreshToken, .getItem .authToken])
      (.request (sentVerifyConfig t)) = .response s d)
    (hs : validateStatus s = true) (hd : d.success = false)
    (href : be (w.trace ++ [.getItem .authToken, .getItem .refreshToken, .getItem .authToken,
        .request (sentVerifyConfig t)])
      (.axiosPost (API_BASE_URL ++ "/api/auth/refresh") (.refreshToken r)) = .response s2 d2)
    (hs2 : validateStatus s2 = true) (hd2 : d2.success = true)
    (ha : d2.accessToken = some a) :
    (initializeAuth be w).2.trace =
      w.trace ++ [.getItem .authToken, .getItem .refreshToken, .getItem .authToken,
        .request (sentVerifyConfig t),
        .axiosPost (API_BASE_URL ++ "/api/auth/refresh") (.refreshToken r),
        .setItem .authToken a] ∧
    (initializeAuth be w).2.store = { authToken := some a, refreshToken := some r } := by
  have hc := requestInterceptor_verifying w t ht htne
  have hres := authService_verifyToken_resolved be t (verifying w) s d
    (by rw [hc, ← hverify]; simp [verifying, dispatch, World.log]) hs
  have htt : truthy (some t) = true := by simp [truthy, htne]
  have hrr : truthy (some r) = true := by simp [truthy, hrne]
  unfold initializeAuth
  simp only [getItem, TokenStore.getItem, ht, htt, toStr, reduceIte]
  have hw : dispatch .VERIFY_TOKEN_START
      ((w.log (.getItem .authToken)).log (.getItem .refreshToken)) = verifying w := rfl
  rw [hw, hres, hc]
  have hst : w.store = { authToken := some t, refreshToken := some r } := by
    cases w with
    | mk store session href trace =>
        cases store
        simp_all
  simp [hd, World.log, hr, hrr, refreshAccessToken, authService.refreshToken, transmit, href, hs2,
    hd2, ha, toStr, dispatch, setItem, TokenStore.setItem, verifying, hst]

/-- C15 (witness): the scenario with tokens `expired`, `valid-r1` and `new-a1`. -/
theorem C15_refresh_is_trusted_witness :
    (initializeAuth (scripted (.response 200 failureBody) (.response 200 refreshedBody))
        bootWorld).2.trace =
      bootWorld.trace ++ [.getItem .authToken, .getItem .refreshToken, .getItem .authToken,
        .request (sentVerifyConfig "expired"),
        .axiosPost (API_BASE_URL ++ "/api/auth/refresh") (.refreshToken "valid-r1"),
        .setItem .authToken "new-a1"] ∧
    (initializeAuth (scripted (.response 200 failureBody) (.response 200 refreshedBody))
        bootWorld).2.store = { authToken := some "new-a1", refreshToken := some "valid-r1" } :=
  C15_refresh_is_trusted _ bootWorld "expired" "valid-r1" "new-a1" 200 200 failureBody
    refreshedBody rfl (by decide) rfl (by decide) rfl (by decide) rfl rfl (by decide) rfl rfl

/-! ## Claims on login and refresh -/

/-- C16: for every pair of tokens whose verify call resolves to
`{ success: true, user }`, `login` stores exactly the two strings, leaves the
session with that user, the two tokens, `isAuthenticated` true, `isLoading`
false and `error` null, and resolves to `{ success: true }`. -/
theorem C16_login_success (be : Backend) (token refreshToken : String) (w w1 : World)
    (d : Data)
    (hv : authService.verifyToken be token (dispatch .LOGIN_START w) = (.ok d, w1))
    (hd : d.success = true) :
    (login be token refreshToken w).1 = .ok { success := true, error := none } ∧
    (login be token refreshToken w).2.store =
      { authToken := some token, refreshToken := some refreshToken } ∧
    (login be token refreshToken w).2.session =
      { user := d.user, token := some token, refreshToken := some refreshToken,
        isAuthenticated := true, isLoading := false, error := none } := by
  unfold login
  rw [hv]
  simp [hd, dispatch, setItem, TokenStore.setItem, authReducer]

/-- C16 (witness): a login with tokens `a1`, `r1` on an empty store, accepted by
the backend. -/
theorem C16_login_success_witness :
    (login (scripted (.response 200 verifiedBody) (.response 200 refreshedBody))
        "a1" "r1" emptyWorld).1 = .ok { success := true, error := none } ∧
    (login (scripted (.response 200 verifiedBody) (.response 200 refreshedBody))
        "a1" "r1" emptyWorld).2.store = { authToken := some "a1", refreshToken := some "r1" } ∧
    (login (scripted (.response 200 verifiedBody) (.response 200 refreshedBody))
        "a1" "r1" emptyWorld).2.session =
      { user := verifiedBody.user, token := some "a1", refreshToken := some "r1",
        isAuthenticated := true, isLoading := false, error := none } :=
  C16_login_success _ "a1" "r1" emptyWorld _ verifiedBody
    (authService_verifyToken_resolved _ "a1" (dispatch .LOGIN_START emptyWorld) 200 verifiedBody
      rfl (by decide))
    rfl

/-- A call of `apiClient` leaves storage as it was unless its request is
answered 401 while a refresh token is stored. -/
theorem apiClient_store (be : Backend) (config : RequestConfig) (w : World)
    (h : truthy w.store.refreshToken = false ∨
      ∀ d, be (w.trace ++ [.getItem .authToken]) (.request (requestInterceptor config w).1)
        ≠ .response 401 d) :
    (apiClient be config w).2.store = w.store := by
  have hrr := requestInterceptor_retry config w
  have htr := requestInterceptor_world config w
  cases hretry : config._retry
  · rw [apiClient]
    generalize hc : requestInterceptor config w = p at *
    obtain ⟨c1, w1⟩ := p
    simp only at hrr htr h ⊢
    subst htr
    rw [hretry] at hrr
    simp only [transmit, World.log, getItem, hrr, and_true, TokenStore.getItem]
    cases hout : be (w.trace ++ [Event.getItem StorageKey.authToken]) (Event.request c1) with
    | noResponse m => simp [settle, JsError.status]
    | response s d =>
        by_cases hv : validateStatus s = true
        · simp [settle, hv]
        · by_cases h401 : s = 401
          · subst h401
            rcases h with h | h
            · simp [settle, hv, JsError.status, h, navigate]
            · exact absurd hout (h d)
          · simp [settle, hv, JsError.status, h401]
  · rw [apiClient_retried _ _ _ hretry, htr]
    rfl

/-- C17 (counterexample): a login whose verify request is answered 401 while an
earlier refresh token is stored fails, yet storage has changed: the interceptor
has stored the access token it got from the refresh. -/
theorem C17_failed_login_changes_storage :
    (login (scripted (.response 401 failureBody) (.response 200 refreshedBody))
        "fresh-a" "fresh-r" bootWorld).1
      = .ok { success := false, error := some "Token verification failed" } ∧
    (login (scripted (.response 401 failureBody) (.response 200 refreshedBody))
        "fresh-a" "fresh-r" bootWorld).2.store
      = { authToken := some "new-a1", refreshToken := some "valid-r1" } ∧
    bootWorld.store = { authToken := some "expired", refreshToken := some "valid-r1" } := by
  simp [login, authService.verifyToken, apiClient, requestInterceptor, getItem, bootWorld,
    scripted, failureBody, refreshedBody, TokenStore.getItem, truthy, transmit, settle,
    validateStatus, World.log, dispatch, toStr, authService.refreshToken, JsError.status,
    setItem, TokenStore.setItem, JsError.responseMessage, orElse, JsError.message]

/-- C17 (amended): for every login whose verification fails, `login` itself
writes nothing (storage is as the verify call left it), and storage is identical
to what it was before the call whenever no refresh token is stored or the verify
request is not answered 401. -/
theorem C17_failed_login_persists_nothing (be : Backend) (token refreshToken : String)
    (w : World) (hfail : loginVerificationFails be token w = true) :
    (login be token refreshToken w).2.store =
      (authService.verifyToken be token (dispatch .LOGIN_START w)).2.store ∧
    ((truthy w.store.refreshToken = false ∨
        ∀ d, be (w.trace ++ [.getItem .authToken])
          (.request (requestInterceptor
            { method := "post", url := "/auth/verify", data := .token token,
              Authorization := none, _retry := false } (dispatch .LOGIN_START w)).1)
          ≠ .response 401 d) →
      (login be token refreshToken w).2.store = w.store) := by
  have hlogin : (login be token refreshToken w).2.store =
      (authService.verifyToken be token (dispatch .LOGIN_START w)).2.store := by
    unfold login
    unfold loginVerificationFails at hfail
    generalize authService.verifyToken be token (dispatch .LOGIN_START w) = p at *
    obtain ⟨res, w1⟩ := p
    cases res with
    | error e => simp [dispatch]
    | ok d =>
        have hd : d.success = false := by simpa using hfail
        simp [hd, dispatch]
  refine ⟨hlogin, fun hcond => ?_⟩
  rw [hlogin, authService_verifyToken_world]
  exact apiClient_store be _ (dispatch .LOGIN_START w) hcond

/-- C17 (witness): a login on an empty store that the backend answers with
`{ success: false }`. -/
theorem C17_failed_login_persists_nothing_witness :
    (login (scripted (.response 200 failureBody) (.response 200 refreshedBody))
        "a1" "r1" emptyWorld).2.store = emptyWorld.store :=
  (C17_failed_login_persists_nothing
    (scripted (.response 200 failureBody) (.response 200 refreshedBody)) "a1" "r1" emptyWorld
    (by simp [loginVerificationFails, authService.verifyToken, apiClient, requestInterceptor,
      getItem, emptyWorld, scripted, failureBody, TokenStore.getItem, truthy, transmit, settle,
      validateStatus, World.log, dispatch])).2 (Or.inl rfl)

/-- C18: for every login whose verification fails, `login` resolves to
`{ success: false, error: m }` and leaves the session with `error` m, `user`,
`token` and `refreshToken` null, `isAuthenticated` and `isLoading` false, where m
is the message of the error verify threw, or `Token verification failed` when
verify resolved to `{ success: false }`. -/
theorem C18_failed_login_reports_reason (be : Backend) (token refreshToken : String)
    (w : World) (hfail : loginVerificationFails be token w = true) :
    (login be token refreshToken w).1 =
      .ok { success := false,
            error := some (loginFailureReason
              (authService.verifyToken be token (dispatch .LOGIN_START w)).1) } ∧
    (login be token refreshToken w).2.session =
      { user := none, token := none, refreshToken := none,
        isAuthenticated := false, isLoading := false,
        error := some (loginFailureReason
          (authService.verifyToken be token (dispatch .LOGIN_START w)).1) } := by
  unfold login
  unfold loginVerificationFails at hfail
  generalize authService.verifyToken be token (dispatch .LOGIN_START w) = p at *
  obtain ⟨res, w1⟩ := p
  cases res with
  | error e => simp [dispatch, authReducer, loginFailureReason]
  | ok d =>
      have hd : d.success = false := by simpa using hfail
      simp [hd, dispatch, authReducer, loginFailureReason, JsError.message]

/-- C18 (witness): a login whose verify request is answered 500 with the message
`Database unavailable`. -/
theorem C18_failed_login_reports_reason_witness :
    (login (scripted (.response 500 unavailableBody) (.response 200 refreshedBody))
        "a1" "r1" emptyWorld).1 =
      .ok { success := false, error := some "Database unavailable" } ∧
    (login (scripted (.response 500 unavailableBody) (.response 200 refreshedBody))
        "a1" "r1" emptyWorld).2.session =
      { user := none, token := none, refreshToken := none,
        isAuthenticated := false, isLoading := false,
        error := some "Database unavailable" } := by
  have hv : (authService.verifyToken
      (scripted (.response 500 unavailableBody) (.response 200 refreshedBody)) "a1"
      (dispatch .LOGIN_START emptyWorld)).1 = .error (.error "Database unavailable") := by
    simp [authService.verifyToken, apiClient, requestInterceptor, getItem, emptyWorld, scripted,
      unavailableBody, TokenStore.getItem, truthy, transmit, settle, validateStatus, World.log,
      dispatch, JsError.status, JsError.responseMessage, orElse]
  have h := C18_failed_login_reports_reason
    (scripted (.response 500 unavailableBody) (.response 200 refreshedBody)) "a1" "r1" emptyWorld
    (by simp [loginVerificationFails, authService.verifyToken, apiClient, requestInterceptor,
      getItem, emptyWorld, scripted, unavailableBody, TokenStore.getItem, truthy, transmit,
      settle, validateStatus, World.log, dispatch, JsError.status])
  rw [hv] at h
  exact h

/-- C19: for every refresh token `r` whose refresh call is answered
`{ success: true, accessToken: a }`, `refreshAccessToken` stores `a` under
`authToken`, sets the session token to `a`, resolves to `a`, and leaves the
refresh token as it was in storage and in the session. -/
theorem C19_refresh_success_keeps_refresh_token (be : Backend) (r a : String) (w : World)
    (s : Nat) (d : Data)
    (href : be w.trace (.axiosPost (API_BASE_URL ++ "/api/auth/refresh") (.refreshToken r))
      = .response s d)
    (hs : validateStatus s = true) (hd : d.success = true) (ha : d.accessToken = some a) :
    (refreshAccessToken be r w).1 = .ok (some a) ∧
    (refreshAccessToken be r w).2.store.authToken = some a ∧
    (refreshAccessToken be r w).2.session.token = some a ∧
    (refreshAccessToken be r w).2.store.refreshToken = w.store.refreshToken ∧
    (refreshAccessToken be r w).2.session.refreshToken = w.session.refreshToken := by
  simp [refreshAccessToken, authService.refreshToken, transmit, href, hs, hd, ha, toStr,
    dispatch, setItem, TokenStore.setItem, World.log, authReducer]

/-- C19 (witness): the boot scenario, refreshing with `valid-r1`. -/
theorem C19_refresh_success_keeps_refresh_token_witness :
    (refreshAccessToken (scripted (.response 200 failureBody) (.response 200 refreshedBody))
        "valid-r1" bootWorld).1 = .ok (some "new-a1") ∧
    (refreshAccessToken (scripted (.response 200 failureBody) (.response 200 refreshedBody))
        "valid-r1" bootWorld).2.store.authToken = some "new-a1" ∧
    (refreshAccessToken (scripted (.response 200 failureBody) (.response 200 refreshedBody))
        "valid-r1" bootWorld).2.session.token = some "new-a1" ∧
    (refreshAccessToken (scripted (.response 200 failureBody) (.response 200 refreshedBody))
        "valid-r1" bootWorld).2.store.refreshToken = bootWorld.store.refreshToken ∧
    (refreshAccessToken (scripted (.response 200 failureBody) (.response 200 refreshedBody))
        "valid-r1" bootWorld).2.session.refreshToken = bootWorld.session.refreshToken :=
  C19_refresh_success_keeps_refresh_token _ "valid-r1" "new-a1" bootWorld 200 refreshedBody
    rfl (by decide) rfl rfl

/-- C20: for every refresh token whose refresh attempt fails (the call throws,
or resolves to a body whose `success` is falsy), `refreshAccessToken` logs out
(both storage keys absent, session in the empty unauthenticated shape) and
rejects with the error of the failed attempt. -/
theorem C20_refresh_failure_logs_out (be : Backend) (r : String) (w : World)
    (hfail : refreshFailed (authService.refreshToken be r w).1 = true) :
    (refreshAccessToken be r w).1 = .error (refreshFailure (authService.refreshToken be r w).1) ∧
    (refreshAccessToken be r w).2.store = { authToken := none, refreshToken := none } ∧
    (refreshAccessToken be r w).2.session =
      { user := none, token := none, refreshToken := none,
        isAuthenticated := false, isLoading := false, error := none } := by
  rw [refreshAccessToken_result, refreshAccessToken_world]
  generalize (authService.refreshToken be r w).1 = res at *
  cases res with
  | error e => simp [refreshFailure, logout_store, logout_session]
  | ok d =>
      have hd : d.success = false := by simpa [refreshFailed] using hfail
      simp [hd, refreshFailure, logout_store, logout_session]

/-- C20 (witness): the boot scenario with a refresh call answered 401 with the
message `Database unavailable`. -/
theorem C20_refresh_failure_logs_out_witness :
    (refreshAccessToken (scripted (.response 200 verifiedBody) (.response 401 unavailableBody))
        "valid-r1" bootWorld).1 = .error (.error "Database unavailable") ∧
    (refreshAccessToken (scripted (.response 200 verifiedBody) (.response 401 unavailableBody))
        "valid-r1" bootWorld).2.store = { authToken := none, refreshToken := none } ∧
    (refreshAccessToken (scripted (.response 200 verifiedBody) (.response 401 unavailableBody))
        "valid-r1" bootWorld).2.session =
      { user := none, token := none, refreshToken := none,
        isAuthenticated := false, isLoading := false, error := none } := by
  have hr : (authService.refreshToken
      (scripted (.response 200 verifiedBody) (.response 401 unavailableBody)) "valid-r1"
      bootWorld).1 = .error (.error "Database unavailable") := by
    simp [authService.refreshToken, transmit, scripted, validateStatus, unavailableBody, orElse]
  have h := C20_refresh_failure_logs_out
    (scripted (.response 200 verifiedBody) (.response 401 unavailableBody)) "valid-r1" bootWorld
    (by rw [hr]; rfl)
  rw [hr] at h
  exact h

/-! ## Claims on the interceptors and the call sites -/

/-- Every call of `apiClient` starts by reading the stored access token and
sending the config the request interceptor returns. -/
theorem apiClient_first_request (be : Backend) (config : RequestConfig) (w : World) :
    ∃ post, (apiClient be config w).2.trace =
      w.trace ++ [.getItem .authToken, .request (requestInterceptor config w).1] ++ post := by
  have hrr := requestInterceptor_retry config w
  have htr := requestInterceptor_world config w
  cases hretry : config._retry
  · rw [apiClient]
    generalize hc : requestInterceptor config w = p at *
    obtain ⟨c1, w1⟩ := p
    simp only at hrr htr ⊢
    subst htr
    rw [hretry] at hrr
    simp only [transmit, World.log, getItem, hrr, and_true, authService.refreshToken,
      apiClient_retried, requestInterceptor_world, setItem, removeItem, navigate,
      List.append_assoc, List.singleton_append, List.cons_append, List.nil_append]
    cases hout : be (w.trace ++ [Event.getItem StorageKey.authToken]) (Event.request c1) with
    | noResponse m => simp [settle, JsError.status]
    | response s d =>
        by_cases hv : validateStatus s = true
        · simp [settle, hv]
        · by_cases h401 : s = 401
          · subst h401
            cases hrt : truthy (w.store.getItem .refreshToken)
            · simp [settle, hv, JsError.status, hrt]
            · cases href : be (w.trace ++ [Event.getItem StorageKey.authToken, Event.request c1,
                  Event.getItem StorageKey.refreshToken])
                (Event.axiosPost (API_BASE_URL ++ "/api/auth/refresh")
                  (Body.refreshToken (toStr (w.store.getItem StorageKey.refreshToken)))) with
              | noResponse m2 => simp [settle, hv, JsError.status, hrt, href]
              | response s2 d2 =>
                  by_cases hv2 : validateStatus s2 = true
                  · cases hsucc : d2.success
                    · simp [settle, hv, JsError.status, hrt, href, hv2, hsucc]
                    · simp [settle, hv, JsError.status, hrt, href, hv2, hsucc, World.log]
                  · simp [settle, hv, JsError.status, hrt, href, hv2]
          · simp [settle, hv, JsError.status, h401]
  · rw [apiClient_retried _ _ _ hretry, htr]
    exact ⟨[], by simp [World.log]⟩

/-- A resolved `refreshAccessToken` has stored the token it resolves to. -/
theorem refreshAccessToken_stored (be : Backend) (r a : String) (w : World)
    (h : (refreshAccessToken be r w).1 = .ok (some a)) :
    (refreshAccessToken be r w).2.store.authToken = some a := by
  rw [refreshAccessToken_result] at h
  rw [refreshAccessToken_world]
  generalize (authService.refreshToken be r w).1 = res at *
  cases res with
  | error e => simp at h
  | ok d =>
      cases hd : d.success
      · simp [hd] at h
      · simp only [hd, reduceIte, Except.ok.injEq] at h
        simp [hd, h, dispatch, setItem, TokenStore.setItem, toStr]

/-- C21: for every request through `apiClient`, the request interceptor reads
`authToken` from storage when the request is sent: a non-empty stored token `t`
gives the header `Bearer t`, otherwise the config is left as it is; the request
put on the wire is that config; so the first request after a
`refreshAccessToken` that resolved to a non-empty token carries that token. -/
theorem C21_request_carries_stored_token (be : Backend) (config : RequestConfig) (w : World) :
    (∀ t, w.store.authToken = some t → t ≠ "" →
      (requestInterceptor config w).1 = { config with Authorization := some ("Bearer " ++ t) }) ∧
    (truthy w.store.authToken = false → (requestInterceptor config w).1 = config) ∧
    (∃ post, (apiClient be config w).2.trace =
      w.trace ++ [.getItem .authToken, .request (requestInterceptor config w).1] ++ post) ∧
    (∀ r a w0, (refreshAccessToken be r w0).1 = .ok (some a) → a ≠ "" →
      (requestInterceptor config (refreshAccessToken be r w0).2).1
        = { config with Authorization := some ("Bearer " ++ a) }) := by
  have hset : ∀ (w1 : World) (t : String), w1.store.authToken = some t → t ≠ "" →
      (requestInterceptor config w1).1 = { config with Authorization := some ("Bearer " ++ t) } := by
    intro w1 t ht htne
    simp [requestInterceptor, getItem, TokenStore.getItem, ht, truthy, htne, toStr]
  refine ⟨hset w, ?_, apiClient_first_request be config w, ?_⟩
  · intro ht
    simp [requestInterceptor, getItem, TokenStore.getItem, ht]
  · intro r a w0 hres hne
    exact hset _ a (refreshAccessToken_stored be r a w0 hres) hne

/-- C21 (witness): in the boot scenario the request carries `Bearer expired`; on
an empty store it carries no header; after a refresh it carries `Bearer new-a1`. -/
theorem C21_request_carries_stored_token_witness :
    (requestInterceptor getUsersConfig bootWorld).1
      = { getUsersConfig with Authorization := some ("Bearer " ++ "expired") } ∧
    (requestInterceptor getUsersConfig emptyWorld).1 = getUsersConfig ∧
    (requestInterceptor getUsersConfig
      (refreshAccessToken (scripted (.response 200 failureBody) (.response 200 refreshedBody))
        "valid-r1" bootWorld).2).1
      = { getUsersConfig with Authorization := some ("Bearer " ++ "new-a1") } :=
  ⟨(C21_request_carries_stored_token
      (scripted (.response 200 failureBody) (.response 200 refreshedBody))
      getUsersConfig bootWorld).1 "expired" rfl (by decide),
   (C21_request_carries_stored_token
      (scripted (.response 200 failureBody) (.response 200 refreshedBody))
      getUsersConfig emptyWorld).2.1 rfl,
   (C21_request_carries_stored_token
      (scripted (.response 200 failureBody) (.response 200 refreshedBody))
      getUsersConfig bootWorld).2.2.2 "valid-r1" "new-a1" bootWorld
      (by simp [refreshAccessToken, authService.refreshToken, transmit, scripted, validateStatus,
        refreshedBody])
      (by decide)⟩

/-- C22 (counterexample): a request answered 401, refreshed, replayed and
answered 401 again is rejected with that failure, and `window.location.href` has
not been assigned. -/
theorem C22_exhausted_retry_does_not_navigate :
    (apiClient (scripted (.response 401 failureBody) (.response 200 refreshedBody))
        getUsersConfig bootWorld).1
      = .error (.axios (statusMessage 401)
          { getUsersConfig with _retry := true, Authorization := some "Bearer new-a1" }
          (some ⟨401, failureBody⟩)) ∧
    (apiClient (scripted (.response 401 failureBody) (.response 200 refreshedBody))
        getUsersConfig bootWorld).2.href = none := by
  simp [apiClient, requestInterceptor, getItem, bootWorld, scripted, failureBody, refreshedBody,
    getUsersConfig, TokenStore.getItem, truthy, transmit, settle, validateStatus, World.log,
    toStr, authService.refreshToken, JsError.status, setItem, TokenStore.setItem]

/-- C22 (amended): when a request already marked `_retry` is answered 401, the
API client does not navigate: it rejects with the 401 failure of that request,
and `window.location.href` and storage stay as they were. -/
theorem C22_exhausted_retry_rejects (be : Backend) (config : RequestConfig) (w : World)
    (d : Data) (hretry : config._retry = true)
    (h401 : be (w.trace ++ [.getItem .authToken]) (.request (requestInterceptor config w).1)
      = .response 401 d) :
    (apiClient be config w).1 =
      .error (.axios (statusMessage 401) (requestInterceptor config w).1 (some ⟨401, d⟩)) ∧
    (apiClient be config w).2.href = w.href ∧
    (apiClient be config w).2.store = w.store ∧
    (apiClient be config w).2.trace =
      w.trace ++ [.getItem .authToken, .request (requestInterceptor config w).1] := by
  have h401s : validateStatus 401 = false := by decide
  rw [apiClient_retried _ _ _ hretry, requestInterceptor_world]
  simp [World.log, h401, settle, h401s]

/-- C22 (witness): the replay of the boot scenario, answered 401. -/
theorem C22_exhausted_retry_rejects_witness :
    (apiClient (scripted (.response 401 failureBody) (.response 200 refreshedBody))
        { getUsersConfig with _retry := true } bootWorld).2.href = bootWorld.href :=
  (C22_exhausted_retry_rejects (scripted (.response 401 failureBody) (.response 200 refreshedBody))
    { getUsersConfig with _retry := true } bootWorld failureBody rfl rfl).2.1

/-- C23 (counterexample): a verify call that gets no response does not return a
`{ success: false, message }` value: `authService.verifyToken` throws. -/
theorem C23_verifyToken_throws :
    (authService.verifyToken (scripted (.noResponse "Network Error") (.response 200 refreshedBody))
        "a1" emptyWorld).1 = .error (.error "Token verification failed") := by
  simp [authService.verifyToken, apiClient, requestInterceptor, getItem, emptyWorld, scripted,
    TokenStore.getItem, truthy, transmit, settle, World.log, JsError.status,
    JsError.responseMessage, orElse]

/-- C23 (amended): of the three call sites only `authService.logout` turns every
failure into a returned `{ success: false, message }`; `verifyToken` and
`refreshToken` turn every failure into a thrown `Error` whose message is the
message of the response body, or a fixed default. -/
theorem C23_call_sites (be : Backend) (token : String) (w : World) :
    (∃ d, (authService.logout be token w).1 = .ok d) ∧
    (∀ e, (apiClient be { method := "post", url := "/auth/logout", data := .refreshToken token,
                          Authorization := none, _retry := false } w).1 = .error e →
      (authService.logout be token w).1 =
        .ok { success := false, user := none, accessToken := none,
              message := some (orElse e.responseMessage "Logout error") }) ∧
    (∀ e, (apiClient be { method := "post", url := "/auth/verify", data := .token token,
                          Authorization := none, _retry := false } w).1 = .error e →
      (authService.verifyToken be token w).1 =
        .error (.error (orElse e.responseMessage "Token verification failed"))) ∧
    (∀ e, settle (refreshConfig token)
        (be w.trace (.axiosPost (API_BASE_URL ++ "/api/auth/refresh") (.refreshToken token)))
          = .error e →
      (authService.refreshToken be token w).1 =
        .error (.error (orElse e.responseMessage "Token refresh failed"))) := by
  refine ⟨?_, ?_, ?_, ?_⟩
  · unfold authService.logout
    split <;> simp
  · intro e he
    unfold authService.logout
    generalize apiClient be _ w = p at *
    obtain ⟨res, w1⟩ := p
    simp only at he
    subst he
    rfl
  · intro e he
    unfold authService.verifyToken
    generalize apiClient be _ w = p at *
    obtain ⟨res, w1⟩ := p
    simp only at he
    subst he
    rfl
  · intro e he
    unfold authService.refreshToken transmit
    cases hout : be w.trace (.axiosPost (API_BASE_URL ++ "/api/auth/refresh")
        (.refreshToken token)) with
    | noResponse m =>
        rw [hout] at he
        simp only [settle, Except.error.injEq] at he
        subst he
        simp [JsError.responseMessage, orElse]
    | response s d =>
        rw [hout] at he
        by_cases hv : validateStatus s = true
        · simp [settle, hv] at he
        · simp only [settle, hv, Bool.false_eq_true, reduceIte, Except.error.injEq] at he
          subst he
          simp [hv, JsError.responseMessage]

/-- C23 (witness): a logout call and a refresh call that get no response. -/
theorem C23_call_sites_witness :
    (authService.logout (scripted (.noResponse "Network Error") (.noResponse "Network Error"))
        "valid-r1" emptyWorld).1 =
      .ok { success := false, user := none, accessToken := none,
            message := some "Logout error" } ∧
    (authService.refreshToken (scripted (.noResponse "Network Error") (.noResponse "Network Error"))
        "valid-r1" emptyWorld).1 = .error (.error "Token refresh failed") :=
  ⟨(C23_call_sites (scripted (.noResponse "Network Error") (.noResponse "Network Error"))
      "valid-r1" emptyWorld).2.1
      (.axios "Network Error"
        { method := "post", url := "/auth/logout", data := .refreshToken "valid-r1",
          Authorization := none, _retry := false } none)
      (by simp [apiClient, requestInterceptor, getItem, emptyWorld, scripted,
        TokenStore.getItem, truthy, transmit, settle, World.log, JsError.status]),
   (C23_call_sites (scripted (.noResponse "Network Error") (.noResponse "Network Error"))
      "valid-r1" emptyWorld).2.2.2
      (.axios "Network Error" (refreshConfig "valid-r1") none) rfl⟩

/-- C24: for every world, `clearError` gives a session whose `error` is null and
whose other fields are those of the session before; storage, location and the
trace (hence storage accesses and backend calls) are untouched. -/
theorem C24_clearError_frame (w : World) :
    (clearError w).session.error = none ∧
    (clearError w).session.user = w.session.user ∧
    (clearError w).session.token = w.session.token ∧
    (clearError w).session.refreshToken = w.session.refreshToken ∧
    (clearError w).session.isAuthenticated = w.session.isAuthenticated ∧
    (clearError w).session.isLoading = w.session.isLoading ∧
    (clearError w).store = w.store ∧
    (clearError w).href = w.href ∧
    (clearError w).trace = w.trace := by
  simp [clearError, dispatch, authReducer]

/-! ## Claims on the callback page -/

/-- What one run of `handleAuthCallback` does: the ref is left alone, and `login`
is called at most once, only with the truthy `token` and `refreshToken` of a
query without a truthy `error`. -/
theorem handleAuthCallback_effects (be : Backend) (sp : SearchParams) (page : CallbackPage) :
    (handleAuthCallback be sp page).hasProcessedRef = page.hasProcessedRef ∧
    ∃ ext, (handleAuthCallback be sp page).events = page.events ++ ext ∧
      (ext.filter PageEvent.isLogin).length ≤ 1 ∧
      ∀ t r, PageEvent.login t r ∈ ext →
        sp.token = some t ∧ sp.refreshToken = some r ∧ t ≠ "" ∧ r ≠ "" ∧
          truthy sp.error = false := by
  unfold handleAuthCallback
  by_cases hcond : (truthy sp.error || !truthy sp.token || !truthy sp.refreshToken) = true
  · simp only [hcond, reduceIte]
    exact ⟨rfl, _, by simp only [CallbackPage.emit, List.append_assoc]; rfl,
      by simp [PageEvent.isLogin], by simp⟩
  · simp only [hcond, Bool.false_eq_true, reduceIte]
    simp only [Bool.or_eq_true, Bool.not_eq_true', not_or, Bool.not_eq_true,
      Bool.not_eq_false] at hcond
    obtain ⟨⟨herr, htok⟩, hrt⟩ := hcond
    have hkey : ∀ t r, toStr sp.token = t → toStr sp.refreshToken = r →
        sp.token = some t ∧ sp.refreshToken = some r ∧ t ≠ "" ∧ r ≠ "" ∧
          truthy sp.error = false := by
      intro t r h1 h2
      cases ht : sp.token with
      | none => simp [ht, truthy] at htok
      | some t0 =>
          cases hr : sp.refreshToken with
          | none => simp [hr, truthy] at hrt
          | some r0 =>
              simp only [ht, hr, toStr] at h1 h2
              subst h1 h2
              simp only [ht, truthy, bne_iff_ne, ne_eq, decide_eq_true_eq] at htok
              simp only [hr, truthy, bne_iff_ne, ne_eq, decide_eq_true_eq] at hrt
              exact ⟨rfl, rfl, htok, hrt, herr⟩
    generalize login be (toStr sp.token) (toStr sp.refreshToken) _ = q
    obtain ⟨res, w1⟩ := q
    cases res with
    | error e =>
        refine ⟨rfl, _, by simp only [CallbackPage.emit, List.append_assoc]; rfl,
            by simp [PageEvent.isLogin], ?_⟩
        intro t r hmem
        simp at hmem
        exact hkey t r hmem.1.symm hmem.2.symm
    | ok result =>
        cases hs : result.success
        · simp only [hs, Bool.false_eq_true, reduceIte]
          refine ⟨rfl, _, by simp only [CallbackPage.emit, List.append_assoc]; rfl,
            by simp [PageEvent.isLogin], ?_⟩
          intro t r hmem
          simp at hmem
          exact hkey t r hmem.1.symm hmem.2.symm
        · simp only [hs, reduceIte]
          refine ⟨rfl, _, by simp only [CallbackPage.emit, List.append_assoc]; rfl,
            by simp [PageEvent.isLogin], ?_⟩
          intro t r hmem
          simp at hmem
          exact hkey t r hmem.1.symm hmem.2.symm

/-- Once the ref is set, further runs of the effect change nothing. -/
theorem effectRuns_processed (be : Backend) (runs : List SearchParams) (page : CallbackPage)
    (h : page.hasProcessedRef = true) : effectRuns be runs page = page := by
  induction runs with
  | nil => rfl
  | cons sp rest ih =>
      simp only [effectRuns, List.foldl_cons, callbackEffect, h, reduceIte]
      exact ih

/-- C25: however many times the effect of one mounted `CallbackPage` runs,
`login` is called at most once, and only by the first run, when its query has a
non-empty `token` and `refreshToken` and no (non-empty) `error`; it is called
with exactly those two strings. -/
theorem C25_login_invoked_at_most_once (be : Backend) (runs : List SearchParams) (w : World) :
    ((effectRuns be runs (CallbackPage.mount w)).events.filter PageEvent.isLogin).length ≤ 1 ∧
    ∀ t r, PageEvent.login t r ∈ (effectRuns be runs (CallbackPage.mount w)).events →
      ∃ first rest, runs = first :: rest ∧ first.token = some t ∧ first.refreshToken = some r ∧
        t ≠ "" ∧ r ≠ "" ∧ truthy first.error = false := by
  cases runs with
  | nil => simp [effectRuns, CallbackPage.mount]
  | cons sp rest =>
      obtain ⟨href, ext, hev, hlen, honly⟩ := handleAuthCallback_effects be sp
        { CallbackPage.mount w with hasProcessedRef := true }
      have hrun : effectRuns be (sp :: rest) (CallbackPage.mount w) =
          handleAuthCallback be sp { CallbackPage.mount w with hasProcessedRef := true } := by
        have h1 : effectRuns be (sp :: rest) (CallbackPage.mount w) =
            effectRuns be rest (callbackEffect be sp (CallbackPage.mount w)) := rfl
        have h2 : callbackEffect be sp (CallbackPage.mount w) =
            handleAuthCallback be sp { CallbackPage.mount w with hasProcessedRef := true } := by
          simp [callbackEffect, CallbackPage.mount]
        rw [h1, h2]
        exact effectRuns_processed be rest _ href
      rw [hrun, hev]
      have hnil : ({ CallbackPage.mount w with hasProcessedRef := true } : CallbackPage).events
          = [] := rfl
      rw [hnil]
      refine ⟨by simpa using hlen, ?_⟩
      intro t r hmem
      exact ⟨sp, rest, rfl, honly t r (by simpa using hmem)⟩

/-- C25 (witness): three runs of the effect with a complete query call `login`
once, with the two strings of the first query. -/
theorem C25_login_invoked_at_most_once_witness :
    ((effectRuns (scripted (.response 200 verifiedBody) (.response 200 refreshedBody))
        [⟨some "a1", some "r1", none, none⟩, ⟨some "a1", some "r1", none, none⟩,
         ⟨some "a2", some "r2", none, none⟩]
        (CallbackPage.mount emptyWorld)).events.filter PageEvent.isLogin).length ≤ 1 ∧
    (effectRuns (scripted (.response 200 verifiedBody) (.response 200 refreshedBody))
        [⟨some "a1", some "r1", none, none⟩, ⟨some "a1", some "r1", none, none⟩,
         ⟨some "a2", some "r2", none, none⟩]
        (CallbackPage.mount emptyWorld)).events.filter PageEvent.isLogin
      = [.login "a1" "r1"] :=
  ⟨(C25_login_invoked_at_most_once
      (scripted (.response 200 verifiedBody) (.response 200 refreshedBody))
      [⟨some "a1", some "r1", none, none⟩, ⟨some "a1", some "r1", none, none⟩,
       ⟨some "a2", some "r2", none, none⟩] emptyWorld).1,
   by simp [effectRuns, callbackEffect, CallbackPage.mount, handleAuthCallback, truthy, toStr,
      CallbackPage.emit, PageEvent.isLogin, login, authService.verifyToken, apiClient,
      requestInterceptor, getItem, emptyWorld, scripted, verifiedBody, TokenStore.getItem,
      transmit, settle, validateStatus, World.log, dispatch]⟩

/-! ## Claims on repeated login, role changes and redirects -/

/-- C26 (counterexample): with a stale refresh token in storage and a backend
that answers the verify request 401 both times and mints a new access token on
each refresh, one failed login leaves `new-a1` in storage and two leave `new-a2`. -/
theorem C26_second_login_changes_storage :
    (login minting "fresh-a" "fresh-r" bootWorld).2.store.authToken = some "new-a1" ∧
    (login minting "fresh-a" "fresh-r"
        (login minting "fresh-a" "fresh-r" bootWorld).2).2.store.authToken = some "new-a2" ∧
    (authService.verifyToken minting "fresh-a"
        (dispatch .LOGIN_START (login minting "fresh-a" "fresh-r" bootWorld).2)).1
      = (authService.verifyToken minting "fresh-a" (dispatch .LOGIN_START bootWorld)).1 := by
  simp [login, authService.verifyToken, apiClient, requestInterceptor, getItem, bootWorld,
    minting, failureBody, refreshedBody, TokenStore.getItem, truthy, transmit, settle,
    validateStatus, World.log, dispatch, toStr, authService.refreshToken, JsError.status,
    setItem, TokenStore.setItem, JsError.responseMessage, orElse, JsError.message,
    Event.isRefreshCall, API_BASE_URL]

/-- The session and the storage `login` leaves are determined by what its
verify call resolved or rejected with, and by the storage that call left. -/
theorem login_outcome (be : Backend) (token refreshToken : String) (w : World) :
    (login be token refreshToken w).2.session =
      (match (authService.verifyToken be token (dispatch .LOGIN_START w)).1 with
       | .ok response =>
           if response.success then
             { user := response.user, token := some token, refreshToken := some refreshToken,
               isAuthenticated := true, isLoading := false, error := none }
           else
             { user := none, token := none, refreshToken := none, isAuthenticated := false,
               isLoading := false, error := some "Token verification failed" }
       | .error error =>
           { user := none, token := none, refreshToken := none, isAuthenticated := false,
             isLoading := false, error := some error.message }) ∧
    (login be token refreshToken w).2.store =
      (match (authService.verifyToken be token (dispatch .LOGIN_START w)).1 with
       | .ok response =>
           if response.success then { authToken := some token, refreshToken := some refreshToken }
           else (authService.verifyToken be token (dispatch .LOGIN_START w)).2.store
       | .error _ => (authService.verifyToken be token (dispatch .LOGIN_START w)).2.store) := by
  unfold login
  generalize authService.verifyToken be token (dispatch .LOGIN_START w) = p
  obtain ⟨res, w1⟩ := p
  cases res with
  | error e => simp [dispatch, authReducer]
  | ok d =>
      cases hd : d.success
      · simp [hd, dispatch, authReducer, JsError.message]
      · simp [hd, dispatch, authReducer, setItem, TokenStore.setItem]

/-- C26 (amended): calling `login` twice with the same arguments, when the verify
call gives the same result both times, leaves the session exactly as a single
call does, and storage too when the verification succeeded, or when it failed
and the second verify request is not answered 401 while a refresh token is
stored. -/
theorem C26_login_idempotent (be : Backend) (token refreshToken : String) (w : World)
    (hsame : (authService.verifyToken be token
        (dispatch .LOGIN_START (login be token refreshToken w).2)).1
      = (authService.verifyToken be token (dispatch .LOGIN_START w)).1)
    (hcond : loginVerificationFails be token w = false ∨
      truthy (login be token refreshToken w).2.store.refreshToken = false ∨
      ∀ d, be ((login be token refreshToken w).2.trace ++ [.getItem .authToken])
        (.request (requestInterceptor
          { method := "post", url := "/auth/verify", data := .token token,
            Authorization := none, _retry := false }
          (dispatch .LOGIN_START (login be token refreshToken w).2)).1) ≠ .response 401 d) :
    (login be token refreshToken (login be token refreshToken w).2).2.session
      = (login be token refreshToken w).2.session ∧
    (login be token refreshToken (login be token refreshToken w).2).2.store
      = (login be token refreshToken w).2.store := by
  obtain ⟨hs2, hst2⟩ := login_outcome be token refreshToken (login be token refreshToken w).2
  obtain ⟨hs1, hst1⟩ := login_outcome be token refreshToken w
  rw [hsame] at hs2 hst2
  refine ⟨by rw [hs2, hs1], ?_⟩
  have hkeep : (truthy (login be token refreshToken w).2.store.refreshToken = false ∨
      ∀ d, be ((login be token refreshToken w).2.trace ++ [.getItem .authToken])
        (.request (requestInterceptor
          { method := "post", url := "/auth/verify", data := .token token,
            Authorization := none, _retry := false }
          (dispatch .LOGIN_START (login be token refreshToken w).2)).1) ≠ .response 401 d) →
      (authService.verifyToken be token
        (dispatch .LOGIN_START (login be token refreshToken w).2)).2.store
        = (login be token refreshToken w).2.store := by
    intro h
    rw [authService_verifyToken_world]
    exact apiClient_store be _ (dispatch .LOGIN_START (login be token refreshToken w).2) h
  unfold loginVerificationFails at hcond
  generalize hres : authService.verifyToken be token (dispatch .LOGIN_START w) = p at *
  obtain ⟨res, w1⟩ := p
  cases res with
  | error e =>
      simp only at hst2 hcond
      rcases hcond with h | h
      · exact absurd h (by decide)
      · rw [hst2, hkeep h]
  | ok d =>
      cases hd : d.success
      · simp only [hd, Bool.false_eq_true, reduceIte] at hst2 hcond
        rcases hcond with h | h
        · exact absurd h (by decide)
        · rw [hst2, hkeep h]
      · simp only [hd, reduceIte] at hst2 hst1
        rw [hst2, hst1]

/-- C26 (witness): two logins with the same tokens, accepted by the backend. -/
theorem C26_login_idempotent_witness :
    (login (scripted (.response 200 verifiedBody) (.response 200 refreshedBody)) "a1" "r1"
        (login (scripted (.response 200 verifiedBody) (.response 200 refreshedBody))
          "a1" "r1" emptyWorld).2).2.session
      = (login (scripted (.response 200 verifiedBody) (.response 200 refreshedBody))
          "a1" "r1" emptyWorld).2.session ∧
    (login (scripted (.response 200 verifiedBody) (.response 200 refreshedBody)) "a1" "r1"
        (login (scripted (.response 200 verifiedBody) (.response 200 refreshedBody))
          "a1" "r1" emptyWorld).2).2.store
      = (login (scripted (.response 200 verifiedBody) (.response 200 refreshedBody))
          "a1" "r1" emptyWorld).2.store :=
  C26_login_idempotent (scripted (.response 200 verifiedBody) (.response 200 refreshedBody))
    "a1" "r1" emptyWorld
    (by simp [login, authService.verifyToken, apiClient, requestInterceptor, getItem, emptyWorld,
      scripted, verifiedBody, TokenStore.getItem, truthy, transmit, settle, validateStatus,
      World.log, dispatch, setItem, TokenStore.setItem, toStr])
    (Or.inl (by simp [loginVerificationFails, authService.verifyToken, apiClient,
      requestInterceptor, getItem, emptyWorld, scripted, verifiedBody, TokenStore.getItem,
      truthy, transmit, settle, validateStatus, World.log, dispatch]))

theorem strictEqNumber_iff (value number : Option Int) :
    strictEqNumber value number = true ↔ ∃ n, value = some n ∧ number = some n := by
  cases value with
  | none => simp [strictEqNumber]
  | some a =>
      cases number with
      | none => simp [strictEqNumber]
      | some b =>
          simp only [strictEqNumber, beq_iff_eq, Option.some.injEq]
          constructor
          · intro h
            exact ⟨a, rfl, h.symm⟩
          · rintro ⟨n, rfl, rfl⟩
            rfl

/-- C27: for every non-null `currentUser` and every scope, `canChangeRole`
returns the value of the reference. -/
theorem C27_canChangeRole_matches_reference (parseInt : String → Option Int)
    (currentUser : CurrentUser) (selectedScope : String) :
    canChangeRole parseInt (some currentUser) selectedScope
      = .ok (canChangeRoleReference parseInt currentUser selectedScope) := by
  obtain ⟨role, userApplications⟩ := currentUser
  unfold canChangeRole canChangeRoleReference
  simp only [Option.some_bind]
  by_cases hg : selectedScope = "global"
  · simp only [hg, reduceIte, Except.ok.injEq]
    by_cases h : role = some "administrator" <;> simp [h]
  · simp only [hg, reduceIte]
    by_cases hadmin : role = some "administrator"
    · simp [hadmin]
    · have h1 : (role == some "administrator") = false := by simpa using hadmin
      have h2 : decide (role = some "administrator") = false := by simpa using hadmin
      simp only [h1, h2, Bool.false_eq_true, reduceIte, Bool.false_or]
      by_cases hmgr : role = some "app_manager"
      · have h3 : (role == some "app_manager") = true := by simpa using hmgr
        have h4 : decide (role = some "app_manager") = true := by simpa using hmgr
        simp only [h3, h4, reduceIte, Bool.true_and, Except.ok.injEq]
        cases userApplications with
        | none => simp
        | some apps =>
            simp only [Option.some_bind, Option.getD_some]
            rw [Bool.eq_iff_iff, List.find?_isSome, List.any_eq_true]
            constructor
            · rintro ⟨ua, hmem, hp⟩
              refine ⟨ua, hmem, ?_⟩
              simp only [Bool.and_eq_true, beq_iff_eq, decide_eq_true_eq] at hp ⊢
              exact ⟨(strictEqNumber_iff _ _).1 hp.1, hp.2⟩
            · rintro ⟨ua, hmem, hp⟩
              refine ⟨ua, hmem, ?_⟩
              simp only [Bool.and_eq_true, beq_iff_eq, decide_eq_true_eq] at hp ⊢
              exact ⟨(strictEqNumber_iff _ _).2 hp.1, hp.2⟩
      · have h3 : (role == some "app_manager") = false := by simpa using hmgr
        have h4 : decide (role = some "app_manager") = false := by simpa using hmgr
        simp [h3, h4]

/-- C29 (the code at the failing input): with `currentUser` null and an
application scope, `canChangeRole` gets past the two `?.` reads and throws a
`TypeError` at `currentUser.systemRole`. -/
theorem C29_canChangeRole_throws_without_user (parseInt : String → Option Int) :
    canChangeRole parseInt none "5"
      = .error (.error "Cannot read properties of null (reading 'systemRole')") := by
  simp [canChangeRole]

/-- C28 (counterexample): a request answered 401 while storage holds an access
token and no refresh token makes the interceptor navigate to `/login` with the
access token still stored. -/
theorem C28_redirect_keeps_access_token :
    (apiClient (scripted (.response 401 failureBody) (.response 200 refreshedBody))
        getUsersConfig accessOnlyWorld).2.href = some "/login" ∧
    (apiClient (scripted (.response 401 failureBody) (.response 200 refreshedBody))
        getUsersConfig accessOnlyWorld).2.store.authToken = some "expired" := by
  simp [apiClient, requestInterceptor, getItem, accessOnlyWorld, scripted, failureBody,
    getUsersConfig, TokenStore.getItem, truthy, transmit, settle, validateStatus, World.log,
    toStr, JsError.status, navigate]

/-- C28 (amended): when the response interceptor navigates to `/login` because
the refresh threw, it has removed both keys just before, so both are absent at
that point; when it navigates because no refresh token is stored, it removes
nothing and storage is as it was. -/
theorem C28_redirect_storage (be : Backend) (config : RequestConfig) (w : World) (d : Data)
    (hfresh : config._retry = false)
    (h401 : be (w.trace ++ [.getItem .authToken]) (.request (requestInterceptor config w).1)
      = .response 401 d) :
    (∀ r e, w.store.refreshToken = some r → r ≠ "" →
      (authService.refreshToken be r
        (((w.log (.getItem .authToken)).log (.request (requestInterceptor config w).1)).log
          (.getItem .refreshToken))).1 = .error e →
      (apiClient be config w).2.trace =
        w.trace ++ [.getItem .authToken, .request (requestInterceptor config w).1,
          .getItem .refreshToken,
          .axiosPost (API_BASE_URL ++ "/api/auth/refresh") (.refreshToken r),
          .removeItem .authToken, .removeItem .refreshToken, .navigate "/login"] ∧
      (apiClient be config w).2.href = some "/login" ∧
      (apiClient be config w).2.store = { authToken := none, refreshToken := none }) ∧
    (truthy w.store.refreshToken = false →
      (apiClient be config w).2.trace =
        w.trace ++ [.getItem .authToken, .request (requestInterceptor config w).1,
          .getItem .refreshToken, .navigate "/login"] ∧
      (apiClient be config w).2.href = some "/login" ∧
      (apiClient be config w).2.store = w.store) := by
  have hrr := requestInterceptor_retry config w
  have htr := requestInterceptor_world config w
  generalize hc : requestInterceptor config w = p at *
  obtain ⟨c1, w1⟩ := p
  simp only at hrr h401 htr ⊢
  subst htr
  have h401s : validateStatus 401 = false := by decide
  constructor
  · intro r e hr hne hthrow
    rw [apiClient]
    simp only [hc, transmit, World.log, h401, settle, h401s]
    simp only [JsError.status, hrr, hfresh, getItem, TokenStore.getItem, hr, truthy, toStr,
      bne_iff_ne, ne_eq, hne, not_false_eq_true, and_self, decide_True, reduceDIte, reduceIte,
      World.log, Bool.false_eq_true]
    simp only [World.log] at hthrow
    have hw := authService_refreshToken_world be r
      { store := w.store, session := w.session, href := w.href,
        trace := w.trace ++ [Event.getItem StorageKey.authToken] ++ [Event.request c1] ++
          [Event.getItem StorageKey.refreshToken] }
    generalize authService.refreshToken be r _ = q at *
    obtain ⟨res, w4⟩ := q
    simp only at hw hthrow
    subst hw hthrow
    simp [removeItem, navigate, World.log, TokenStore.removeItem]
  · intro hrt
    rw [apiClient]
    simp only [hc, transmit, World.log, h401, settle, h401s]
    simp [JsError.status, hrr, hfresh, getItem, TokenStore.getItem, hrt, navigate, World.log]

/-- C28 (witness): the boot scenario with a refresh call that gets no response,
and the scenario without a refresh token. -/
theorem C28_redirect_storage_witness :
    (apiClient (scripted (.response 401 failureBody) (.noResponse "Network Error"))
        getUsersConfig bootWorld).2.store = { authToken := none, refreshToken := none } ∧
    (apiClient (scripted (.response 401 failureBody) (.noResponse "Network Error"))
        getUsersConfig accessOnlyWorld).2.store = accessOnlyWorld.store :=
  ⟨((C28_redirect_storage (scripted (.response 401 failureBody) (.noResponse "Network Error"))
      getUsersConfig bootWorld failureBody rfl rfl).1 "valid-r1"
      (.error "Token refresh failed") rfl (by decide)
      (by simp [authService.refreshToken, transmit, scripted])).2.2,
   ((C28_redirect_storage (scripted (.response 401 failureBody) (.noResponse "Network Error"))
      getUsersConfig accessOnlyWorld failureBody rfl rfl).2 rfl).2.2⟩

/-- C30: for every boot state without a (non-empty) stored access token,
`initializeAuth` only reads the two keys: storage is as it was, a stored refresh
token included, and the session ends unauthenticated. -/
theorem C30_initialize_without_token_frame (be : Backend) (w : World)
    (ht : truthy w.store.authToken = false) :
    (initializeAuth be w).2.store = w.store ∧
    (initializeAuth be w).2.trace = w.trace ++ [.getItem .authToken, .getItem .refreshToken] ∧
    (initializeAuth be w).2.session.isAuthenticated = false := by
  simp [initializeAuth, getItem, TokenStore.getItem, ht, dispatch, World.log, authReducer]

/-- C30 (witness): a boot with only a refresh token stored leaves that refresh
token in storage. -/
theorem C30_initialize_without_token_frame_witness :
    (initializeAuth (scripted (.response 200 verifiedBody) (.response 200 refreshedBody))
        refreshOnlyWorld).2.store = { authToken := none, refreshToken := some "valid-r1" } :=
  (C30_initialize_without_token_frame
    (scripted (.response 200 verifiedBody) (.response 200 refreshedBody)) refreshOnlyWorld rfl).1

/-! ## Calls that never settle: lemmas and claims -/

theorem answering_backend (be : Backend) : (answering be).backend = be := rfl

/-- On a network too, a config already marked `_retry` is sent once and settles
as `apiClient` does. -/
theorem apiClientOn_retried (net : Network) (config : RequestConfig) (w : World)
    (h : config._retry = true) :
    apiClientOn net config w = .settled (apiClient net.backend config w) := by
  have hr := requestInterceptor_retry config w
  rw [apiClient_retried _ _ _ h, apiClientOn]
  split
  rename_i c1 w1 hc
  rw [hc] at hr ⊢
  simp only at hr
  simp only [transmit]
  split
  · rename_i r hs
    rw [hs]
  · rename_i e hs
    rw [hs]
    simp [hr, h]

/-- When the refresh call of the recovery path is answered, `apiClient` on a
network settles, as `apiClient` does for the backend the network amounts to. -/
theorem apiClientOn_answered (net : Network) (config : RequestConfig) (w : World)
    (h : net (w.trace ++ [.getItem .authToken, .request (requestInterceptor config w).1,
          .getItem .refreshToken])
        (.axiosPost (API_BASE_URL ++ "/api/auth/refresh")
          (.refreshToken (toStr w.store.refreshToken))) ≠ .never) :
    apiClientOn net config w = .settled (apiClient net.backend config w) := by
  have hrr := requestInterceptor_retry config w
  have htr := requestInterceptor_world config w
  cases hretry : config._retry
  · rw [apiClientOn, apiClient]
    generalize hc : requestInterceptor config w = p at *
    obtain ⟨c1, w1⟩ := p
    simp only at hrr htr h ⊢
    subst htr
    rw [hretry] at hrr
    simp only [transmit, World.log, getItem, hrr, and_true, TokenStore.getItem,
      List.append_assoc, List.singleton_append, List.cons_append, List.nil_append]
    cases hs : settle c1 (net.backend (w.trace ++ [Event.getItem StorageKey.authToken])
        (Event.request c1)) with
    | ok r => rfl
    | error e =>
        by_cases h401 : e.status = some 401
        · simp only [h401, reduceDIte]
          cases hrt : truthy w.store.refreshToken
          · simp
          · simp only [reduceIte]
            cases hnet : net (w.trace ++ [Event.getItem StorageKey.authToken, Event.request c1,
                  Event.getItem StorageKey.refreshToken])
                (Event.axiosPost (API_BASE_URL ++ "/api/auth/refresh")
                  (Body.refreshToken (toStr w.store.refreshToken))) with
            | never => exact absurd hnet h
            | outcome o =>
                simp only [authService.refreshTokenOn, hnet]
                generalize authService.refreshToken net.backend (toStr w.store.refreshToken) _ = q
                obtain ⟨res, w4⟩ := q
                cases res with
                | error e2 => rfl
                | ok d =>
                    cases hd : d.success
                    · simp [hd]
                    · simp only [hd, reduceIte]
                      exact apiClientOn_retried net _ _ rfl
        · simp [h401]
  · exact apiClientOn_retried net config w hretry

/-- What one call of `apiClient` on a network has added to the trace, whether
it has settled or waits for the refresh. -/
theorem apiClientOn_effects (net : Network) (config : RequestConfig) (w : World) :
    ∃ ext, (apiClientOn net config w).world.trace = w.trace ++ ext ∧
      (ext.filter Event.isRequest).length ≤ 2 ∧
      (ext.filter Event.isRefreshCall).length ≤ 1 ∧
      (∀ c, Event.request c ∈ ext →
        c.method = config.method ∧ c.url = config.url ∧ c.data = config.data) := by
  by_cases hnever : net (w.trace ++ [.getItem .authToken, .request (requestInterceptor config w).1,
          .getItem .refreshToken])
        (.axiosPost (API_BASE_URL ++ "/api/auth/refresh")
          (.refreshToken (toStr w.store.refreshToken))) = .never
  · have hrr := requestInterceptor_retry config w
    have htr := requestInterceptor_world config w
    have hf := requestInterceptor_fields config w
    cases hretry : config._retry
    · rw [apiClientOn]
      generalize hc : requestInterceptor config w = p at *
      obtain ⟨c1, w1⟩ := p
      simp only at hrr htr hf hnever ⊢
      subst htr
      rw [hretry] at hrr
      simp only [transmit, World.log, getItem, hrr, and_true, TokenStore.getItem,
        List.append_assoc, List.singleton_append, List.cons_append, List.nil_append]
      cases hs : settle c1 (net.backend (w.trace ++ [Event.getItem StorageKey.authToken])
          (Event.request c1)) with
      | ok r =>
          simp [Settlement.world, Event.isRequest, Event.isRefreshCall, hf]
      | error e =>
          by_cases h401 : e.status = some 401
          · simp only [h401, reduceDIte]
            cases hrt : truthy w.store.refreshToken
            · simp [Settlement.world, navigate, Event.isRequest, Event.isRefreshCall, hf]
            · simp [authService.refreshTokenOn, hnever, Settlement.world, World.log,
                Event.isRequest, Event.isRefreshCall, hf]
          · simp [h401, Settlement.world, Event.isRequest, Event.isRefreshCall, hf]
    · rw [apiClientOn_retried net config w hretry]
      obtain ⟨ext, h1, h2, h3, h4, _⟩ := apiClient_effects net.backend config w
      exact ⟨ext, h1, h2, h3, h4⟩
  · rw [apiClientOn_answered net config w hnever]
    obtain ⟨ext, h1, h2, h3, h4, _⟩ := apiClient_effects net.backend config w
    exact ⟨ext, h1, h2, h3, h4⟩

/-- C8 (counterexample): a request answered 401 while a refresh token is stored,
on a network that never answers the refresh call, never returns: the call waits
for the refresh, having sent the request once. -/
theorem C8_unanswered_refresh_never_returns :
    apiClientOn stalling getUsersConfig bootWorld =
      .pending
        { bootWorld with
          trace := [.getItem .authToken,
            .request { getUsersConfig with Authorization := some "Bearer expired" },
            .getItem .refreshToken,
            .axiosPost (API_BASE_URL ++ "/api/auth/refresh") (.refreshToken "valid-r1")] } := by
  simp [apiClientOn, requestInterceptor, getItem, bootWorld, stalling, Network.backend,
    failureBody, getUsersConfig, TokenStore.getItem, truthy, transmit, settle, validateStatus,
    World.log, toStr, authService.refreshTokenOn, JsError.status]

/-- C8 (amended): for every network, one call of `apiClient` sends the request
at most twice, always with the method, url and body of the original, and calls
the refresh endpoint at most once, whether it has returned or waits; and it
returns whenever the refresh call of its recovery path is answered. -/
theorem C8_retry_cap (net : Network) (config : RequestConfig) (w : World) :
    (∃ ext, (apiClientOn net config w).world.trace = w.trace ++ ext ∧
      (ext.filter Event.isRequest).length ≤ 2 ∧
      (ext.filter Event.isRefreshCall).length ≤ 1 ∧
      (∀ c, Event.request c ∈ ext →
        c.method = config.method ∧ c.url = config.url ∧ c.data = config.data)) ∧
    (net (w.trace ++ [.getItem .authToken, .request (requestInterceptor config w).1,
          .getItem .refreshToken])
        (.axiosPost (API_BASE_URL ++ "/api/auth/refresh")
          (.refreshToken (toStr w.store.refreshToken))) ≠ .never →
      apiClientOn net config w = .settled (apiClient net.backend config w)) :=
  ⟨apiClientOn_effects net config w, apiClientOn_answered net config w⟩

/-- C8 (witness): a backend that answers 401 to every request and accepts every
refresh: the call returns, with what `apiClient` gives for that backend. -/
theorem C8_retry_cap_witness :
    apiClientOn (answering (scripted (.response 401 failureBody) (.response 200 refreshedBody)))
        getUsersConfig bootWorld =
      .settled (apiClient (scripted (.response 401 failureBody) (.response 200 refreshedBody))
        getUsersConfig bootWorld) :=
  (C8_retry_cap (answering (scripted (.response 401 failureBody) (.response 200 refreshedBody)))
    getUsersConfig bootWorld).2 (by simp [answering])

/-- C10 (counterexample): a logout whose request is answered 401, on a network
that never answers the refresh call the interceptor then makes, never completes:
it waits with both tokens still stored and the session untouched. -/
theorem C10_logout_waits_for_unanswered_refresh :
    logoutOn stalling bootWorld =
      .pending
        { store := { authToken := some "expired", refreshToken := some "valid-r1" },
          session := authInitialState, href := none,
          trace := [.getItem .refreshToken, .getItem .authToken,
            .request { method := "post", url := "/auth/logout",
                       data := .refreshToken "valid-r1",
                       Authorization := some "Bearer expired", _retry := false },
            .getItem .refreshToken,
            .axiosPost (API_BASE_URL ++ "/api/auth/refresh") (.refreshToken "valid-r1")] } := by
  simp [logoutOn, authService.logoutOn, apiClientOn, requestInterceptor, getItem, bootWorld,
    stalling, Network.backend, failureBody, TokenStore.getItem, truthy, transmit, settle,
    validateStatus, World.log, toStr, authService.refreshTokenOn, JsError.status]

/-- When the refresh call the interceptor may make for the logout request is
answered, `logout` on a network settles as `logout` does. -/
theorem logoutOn_answered (net : Network) (w : World)
    (h : net (w.trace ++ [.getItem .refreshToken, .getItem .authToken,
          .request (requestInterceptor
            { method := "post", url := "/auth/logout",
              data := .refreshToken (toStr w.store.refreshToken),
              Authorization := none, _retry := false } (w.log (.getItem .refreshToken))).1,
          .getItem .refreshToken])
        (.axiosPost (API_BASE_URL ++ "/api/auth/refresh")
          (.refreshToken (toStr w.store.refreshToken))) ≠ .never) :
    logoutOn net w = .settled (logout net.backend w) := by
  unfold logoutOn logout
  simp only [getItem, TokenStore.getItem]
  cases hrt : truthy w.store.refreshToken
  · rfl
  · simp only [reduceIte, authService.logoutOn, authService.logout]
    rw [apiClientOn_answered net _ (w.log (.getItem .refreshToken))
      (by simpa [World.log] using h)]
    generalize apiClient net.backend _ (w.log (.getItem .refreshToken)) = q
    obtain ⟨res, w1⟩ := q
    cases res <;> rfl

/-- C10 (amended): for every storage content and every network, `logout` never
rejects; it completes normally whenever the refresh call that the interceptor
may make for the logout request is answered; and with no refresh token stored it
completes after reading the key and removing both keys, with no backend call. -/
theorem C10_logout_never_rejects (net : Network) (w : World) :
    (∀ e w1, logoutOn net w ≠ .settled (.error e, w1)) ∧
    (net (w.trace ++ [.getItem .refreshToken, .getItem .authToken,
          .request (requestInterceptor
            { method := "post", url := "/auth/logout",
              data := .refreshToken (toStr w.store.refreshToken),
              Authorization := none, _retry := false } (w.log (.getItem .refreshToken))).1,
          .getItem .refreshToken])
        (.axiosPost (API_BASE_URL ++ "/api/auth/refresh")
          (.refreshToken (toStr w.store.refreshToken))) ≠ .never →
      logoutOn net w = .settled (.ok (), (logout net.backend w).2)) ∧
    (truthy w.store.refreshToken = false →
      logoutOn net w = .settled (.ok (), (logout net.backend w).2) ∧
      (logout net.backend w).2.trace =
        w.trace ++ [.getItem .refreshToken, .removeItem .authToken, .removeItem .refreshToken]) := by
  have hpair : logout net.backend w = (.ok (), (logout net.backend w).2) := by
    have h := logout_ok net.backend w
    generalize logout net.backend w = q at *
    obtain ⟨res, w1⟩ := q
    simp only at h
    subst h
    rfl
  refine ⟨?_, ?_, ?_⟩
  · intro e w1
    unfold logoutOn
    simp only
    split <;> simp
  · intro h
    rw [logoutOn_answered net w h]
    exact congrArg Settlement.settled hpair
  · intro hrt
    constructor
    · rw [← hpair]
      unfold logoutOn logout
      simp [getItem, TokenStore.getItem, hrt]
    · rw [logout_world]
      simp [hrt, dispatch, removeItem, World.log]

/-- C10 (witness): on the network that never answers the refresh call, a logout
with no refresh token stored completes; with one stored it completes when the
refresh call is answered. -/
theorem C10_logout_never_rejects_witness :
    (logoutOn stalling accessOnlyWorld =
        .settled (.ok (), (logout stalling.backend accessOnlyWorld).2) ∧
      (logout stalling.backend accessOnlyWorld).2.trace =
        accessOnlyWorld.trace ++
          [.getItem .refreshToken, .removeItem .authToken, .removeItem .refreshToken]) ∧
    logoutOn (answering (scripted (.response 401 failureBody) (.noResponse "Network Error")))
        bootWorld =
      .settled (.ok (),
        (logout (scripted (.response 401 failureBody) (.noResponse "Network Error"))
          bootWorld).2) :=
  ⟨(C10_logout_never_rejects stalling accessOnlyWorld).2.2 rfl,
   (C10_logout_never_rejects
      (answering (scripted (.response 401 failureBody) (.noResponse "Network Error")))
      bootWorld).2.1 (by simp [answering])⟩

end PrqPortal
